import Mathlib

/-!
# SFP LED daemon: embedding and verification

Shallow embedding of the two stand-alone SFP LED daemons

* `meta-mono-bsp/recipes-support/sfp-led-daemon/files/src/sfp-led-daemon.c`
  (kernel notification plus periodic debugfs poll), namespace `Notify`;
* `recipes-support/sfp-led-daemon/files/src/sfp-led-daemon.c`
  (fixed-interval polling only), namespace `PollOnly`;

followed by theorems about them.

Conventions.  A byte of a text file is a `Char`, a byte of a binary device-tree
property is a `Fin 256`.  A C string is the list of its bytes up to, and without,
the terminating NUL.  `uint32_t` values are `Nat` taken `% 2^32` where the code
can wrap.  System calls whose result the code tests take their outcome from an
oracle indexed by a system-call counter, so every pattern of failures is covered.
-/

namespace SfpLed

/-! ## C library -/

/-- The NUL byte. -/
def NUL : Char := Char.ofNat 0

/-- The C string stored at the start of a byte sequence: the bytes before the first NUL. -/
def c_str (bytes : List Char) : List Char := bytes.takeWhile (fun c => c != NUL)

/-- Test `strncmp(a, b, n) == 0` on two C strings. -/
def strncmp_eq (a b : List Char) (n : Nat) : Bool := decide (a.take n = b.take n)

/-- Output of the conversion `%u`. -/
def fmt_u (v : Nat) : List Char := Nat.toDigits 10 v

/-- Output of the conversion `%d`. -/
def fmt_d (v : Int) : List Char :=
  if v < 0 then '-' :: Nat.toDigits 10 v.natAbs else Nat.toDigits 10 v.toNat

/-- Call `snprintf(buf, size, ...)` whose complete (NUL-free) output would be `out`, for
`size > 0`: the C string left in `buf` (it is followed there by its terminating NUL), and
the return value. -/
def snprintf (size : Nat) (out : List Char) : List Char × Nat :=
  (out.take (size - 1), out.length)

/-- Result of `read(fd, buf, count)` on a file holding `content`, read from offset 0:
the bytes stored in `buf`. -/
def read_bytes {α : Type} (count : Nat) (content : List α) : List α := content.take count

/-! ## Constants -/

def MAX_NETDEV_NAME : Nat := 32
def LED_OFF : Int := 0
def LED_MAX : Int := 255
def DEBUGFS_STATE_BUF_SIZE : Nat := 512
def BRIGHTNESS_BUF_SIZE : Nat := 4
def PATH_MAX : Nat := 4096
def MODDEF0_PREFIX : List Char := ['m', 'o', 'd', 'd', 'e', 'f', '0', ':']
def MODDEF0_PREFIX_LEN : Nat := 8
def RX_LOS_PREFIX : List Char := ['r', 'x', '_', 'l', 'o', 's', ':']
def RX_LOS_PREFIX_LEN : Nat := 7
def FMAN_PREFIX : List Char := ['f', 'm', 'a', 'n', '@']
def FMAN_PREFIX_LEN : Nat := 5
def ETHERNET_PREFIX : List Char := ['e', 't', 'h', 'e', 'r', 'n', 'e', 't', '@']
def ETHERNET_PREFIX_LEN : Nat := 9

/-! ## Status file (debugfs state blob) -/

/-- What one tick observes of the debugfs state file behind `mod_present_fd`. -/
structure StatusFile where
  /-- Whether `lseek(fd, 0, SEEK_SET)` succeeds. -/
  seek_ok : Bool
  /-- The file content, `none` when `read` fails. -/
  content : Option (List Char)
deriving DecidableEq, Repr

/-- The line scan shared by `read_module_present` and `read_rx_los` of the notification
variant: the `while (pos && *pos)` loop over the NUL-terminated buffer.  `pos` is the C
string at the scan position, `dflt` the value returned after the loop, and `fuel` bounds
the number of iterations (each one consumes at least one byte). -/
def scan_lines (key : List Char) (key_len : Nat) (dflt : Bool) : Nat → List Char → Bool
  | 0, _ => dflt
  | fuel + 1, pos =>
    if pos = [] then dflt
    else
      -- line_end = strchr(pos, '\n'); if (line_end) *line_end = '\0';
      let line := pos.takeWhile (fun c => c != '\n')
      let after := pos.dropWhile (fun c => c != '\n')
      if strncmp_eq line key key_len then
        -- value = pos + key_len; while (*value == ' ') value++; return (*value == '1');
        let value := (line.drop key_len).dropWhile (fun c => c == ' ')
        decide (value.head? = some '1')
      else
        match after with
        | [] => dflt
        | _ :: next => scan_lines key key_len dflt fuel next

namespace Notify

/-- Source function `read_module_present` (notification variant). -/
def read_module_present (fd : Int) (f : StatusFile) : Bool :=
  if fd < 0 then false
  else if !f.seek_ok then false
  else
    match f.content with
    | none => false
    | some content =>
      let buf := read_bytes (DEBUGFS_STATE_BUF_SIZE - 1) content
      if buf.length = 0 then false
      else scan_lines MODDEF0_PREFIX MODDEF0_PREFIX_LEN false DEBUGFS_STATE_BUF_SIZE (c_str buf)

/-- Source function `read_rx_los` (notification variant). -/
def read_rx_los (fd : Int) (f : StatusFile) : Bool :=
  if fd < 0 then true
  else if !f.seek_ok then true
  else
    match f.content with
    | none => true
    | some content =>
      let buf := read_bytes (DEBUGFS_STATE_BUF_SIZE - 1) content
      if buf.length = 0 then true
      else scan_lines RX_LOS_PREFIX RX_LOS_PREFIX_LEN true DEBUGFS_STATE_BUF_SIZE (c_str buf)

end Notify

/-! ## LED brightness formatting -/

/-- The bytes `set_led_brightness` hands to `write(fd, buf, len)`: `buf` is the 4-byte
buffer filled by `snprintf(buf, sizeof(buf), "%d\n", brightness)` and `len` its return
value.  `none` when `len` exceeds the buffer (the call would read past `buf`). -/
def brightness_payload (brightness : Int) : Option (List Char) :=
  let r := snprintf BRIGHTNESS_BUF_SIZE (fmt_d brightness ++ ['\n'])
  if r.2 ≤ BRIGHTNESS_BUF_SIZE then some ((r.1 ++ [NUL]).take r.2) else none

/-! ## Device tree -/

/-- A device-tree property pseudo-file: `none` when `open` fails, else its bytes. -/
abbrev DtFile := Option (List (Fin 256))

/-- An entry of an `fman@...` directory, with the two property files the resolver reads
below it (`<entry>/sfp` and `<entry>/cell-index`). -/
structure EthNode where
  d_name : List Char
  sfp : DtFile
  cell_index : DtFile
deriving DecidableEq, Repr

/-- An entry of the `soc` directory; `children` is what `opendir`/`readdir` on it give, in
`readdir` order, `none` when `opendir` fails. -/
structure SocNode where
  d_name : List Char
  children : Option (List EthNode)
deriving DecidableEq, Repr

/-- The part of `/sys/firmware/devicetree/base` the resolver reads.  Entry names are at most
`NAME_MAX` bytes, so no path built in a `PATH_MAX` buffer is truncated. -/
structure DeviceTree where
  /-- File `<sfp_name>/phandle`. -/
  phandle : List Char → DtFile
  /-- Directory `soc`, `none` when `opendir` fails. -/
  soc : Option (List SocNode)

/-- The `uint32_t` a little-endian CPU holds after `read` stored these four bytes in it. -/
def load_u32 (b0 b1 b2 b3 : Fin 256) : Nat :=
  b0.val + b1.val * 2 ^ 8 + b2.val * 2 ^ 16 + b3.val * 2 ^ 24

/-- Builtin `__builtin_bswap32`. -/
def bswap32 (v : Nat) : Nat :=
  (v % 2 ^ 8) * 2 ^ 24 + (v / 2 ^ 8 % 2 ^ 8) * 2 ^ 16 + (v / 2 ^ 16 % 2 ^ 8) * 2 ^ 8
    + v / 2 ^ 24 % 2 ^ 8

/-- The interface-name prefix of the format `"fm1-mac%u"`. -/
def NETDEV_PREFIX : List Char := ['f', 'm', '1', '-', 'm', 'a', 'c']

namespace Notify

/-- Source function `read_dt_u32` (notification variant). -/
def read_dt_u32 (f : DtFile) : Nat :=
  match f with
  | none => 0
  | some content =>
    match read_bytes 4 content with
    | [b0, b1, b2, b3] => bswap32 (load_u32 b0 b1 b2 b3)
    | _ => 0

/-- Inner `readdir` loop of `find_netdev_for_sfp` over the entries of one `fman@` directory:
the `cell-index` of the endpoint the result is built from, if any. -/
def scan_fman (sfp_phandle : Nat) : List EthNode → Option Nat
  | [] => none
  | e :: rest =>
    if !strncmp_eq e.d_name ETHERNET_PREFIX ETHERNET_PREFIX_LEN then scan_fman sfp_phandle rest
    else if read_dt_u32 e.sfp = sfp_phandle then
      let cell_index := read_dt_u32 e.cell_index
      if cell_index > 1000 then scan_fman sfp_phandle rest
      else some cell_index
    else scan_fman sfp_phandle rest

/-- Outer `readdir` loop of `find_netdev_for_sfp` over the entries of `soc`. -/
def scan_soc (sfp_phandle : Nat) : List SocNode → Option Nat
  | [] => none
  | n :: rest =>
    if !strncmp_eq n.d_name FMAN_PREFIX FMAN_PREFIX_LEN then scan_soc sfp_phandle rest
    else
      match n.children with
      | none => scan_soc sfp_phandle rest
      | some entries =>
        match scan_fman sfp_phandle entries with
        | some cell_index => some cell_index
        | none => scan_soc sfp_phandle rest

/-- Source function `find_netdev_for_sfp` (notification variant): the return value and the
C string in the caller's buffer `netdev_out` afterwards. -/
def find_netdev_for_sfp (dt : DeviceTree) (sfp_name : List Char) (netdev_out : List Char)
    (out_size : Nat) : Int × List Char :=
  let sfp_phandle := read_dt_u32 (dt.phandle sfp_name)
  if sfp_phandle = 0 then (-1, netdev_out)
  else
    match dt.soc with
    | none => (-1, netdev_out)
    | some entries =>
      match scan_soc sfp_phandle entries with
      | some cell_index =>
        (0, (snprintf out_size (NETDEV_PREFIX ++ fmt_u ((cell_index + 1) % 2 ^ 32))).1)
      | none => (-1, netdev_out)

end Notify

namespace PollOnly

/-- Source function `read_dt_u32` (poll-only variant). -/
def read_dt_u32 (f : DtFile) : Nat :=
  match f with
  | none => 0
  | some content =>
    match read_bytes 4 content with
    | [b0, b1, b2, b3] => bswap32 (load_u32 b0 b1 b2 b3)
    | _ => 0

/-- Inner `readdir` loop of `find_netdev_for_sfp` (poll-only variant). -/
def scan_fman (sfp_phandle : Nat) : List EthNode → Option Nat
  | [] => none
  | e :: rest =>
    if !strncmp_eq e.d_name ETHERNET_PREFIX ETHERNET_PREFIX_LEN then scan_fman sfp_phandle rest
    else if read_dt_u32 e.sfp = sfp_phandle then some (read_dt_u32 e.cell_index)
    else scan_fman sfp_phandle rest

/-- Outer `readdir` loop of `find_netdev_for_sfp` (poll-only variant). -/
def scan_soc (sfp_phandle : Nat) : List SocNode → Option Nat
  | [] => none
  | n :: rest =>
    if !strncmp_eq n.d_name FMAN_PREFIX FMAN_PREFIX_LEN then scan_soc sfp_phandle rest
    else
      match n.children with
      | none => scan_soc sfp_phandle rest
      | some entries =>
        match scan_fman sfp_phandle entries with
        | some cell_index => some cell_index
        | none => scan_soc sfp_phandle rest

/-- Source function `find_netdev_for_sfp` (poll-only variant). -/
def find_netdev_for_sfp (dt : DeviceTree) (sfp_name : List Char) (netdev_out : List Char)
    (out_size : Nat) : Int × List Char :=
  let sfp_phandle := read_dt_u32 (dt.phandle sfp_name)
  if sfp_phandle = 0 then (-1, netdev_out)
  else
    match dt.soc with
    | none => (-1, netdev_out)
    | some entries =>
      match scan_soc sfp_phandle entries with
      | some cell_index =>
        (0, (snprintf out_size (NETDEV_PREFIX ++ fmt_u ((cell_index + 1) % 2 ^ 32))).1)
      | none => (-1, netdev_out)

end PollOnly

/-! ## LED actuation and the port state machine (notification variant) -/

/-- The two LEDs of a port, i.e. which brightness handle a call is made on. -/
inductive Led where
  | link
  | activity
deriving DecidableEq, Repr

/-- The attribute files of `/sys/class/leds/<activity_led>/` written by `write_sysfs_string`. -/
inductive Attr where
  | trigger
  | device_name
  | tx
  | rx
deriving DecidableEq, Repr

/-- The four descriptors a port owns. -/
inductive Handle where
  | carrier
  | link_led
  | activity_led
  | mod_present
deriving DecidableEq, Repr

/-- How far an actuation call got. -/
inductive Outcome where
  /-- The `write` transferred every byte; the call returns 0. -/
  | done
  /-- The `write` was made and failed or was short; the call returns -1. -/
  | write_failed
  /-- The call failed before any `write` (`lseek` or `open` failed); it returns -1. -/
  | not_written
deriving DecidableEq, Repr

/-- Return value of an actuation call with the given outcome. -/
def Outcome.ret : Outcome → Int
  | .done => 0
  | _ => -1

/-- One externally visible action of the daemon on a port. -/
inductive Act where
  /-- Call `set_led_brightness(fd, brightness)` on an open handle; `payload` are the bytes
  it hands to `write`. -/
  | brightness (led : Led) (brightness : Int) (payload : Option (List Char)) (o : Outcome)
  /-- Call `write_sysfs_string(path, value)` on an attribute of the activity LED. -/
  | sysfs (attr : Attr) (value : List Char) (o : Outcome)
  /-- Call `close` on one of the port handles. -/
  | close (h : Handle)
  /-- Call `inotify_rm_watch` for the port watch. -/
  | rm_watch
deriving DecidableEq, Repr

/-- Outcomes of the system calls, indexed by the position of the call in the run. -/
structure Env where
  /-- Whether the call succeeds, when it is an `lseek` or a `write`. -/
  ok : Nat → Bool
  /-- The descriptor returned when it is an `open` or `inotify_add_watch` (negative: failure). -/
  desc : Nat → Int
  /-- The global `inotify_fd`, set by `main` before the ports are set up. -/
  inotify_fd : Int
  /-- The device tree the resolver reads. -/
  dt : DeviceTree

/-- The run so far: number of system calls made and the actions issued, oldest first. -/
structure World where
  clock : Nat
  trace : List Act
deriving DecidableEq, Repr

/-- Advance the clock by `n` system calls and record one action. -/
def World.emit (w : World) (n : Nat) (a : Act) : World :=
  { clock := w.clock + n, trace := w.trace ++ [a] }

/-- Source type `struct sfp_port` (notification variant); strings are C strings. -/
structure sfp_port where
  netdev : List Char
  link_led : List Char
  activity_led : List Char
  sfp_name : List Char
  carrier_fd : Int
  link_led_fd : Int
  activity_led_fd : Int
  mod_present_fd : Int
  inotify_wd : Int
  last_carrier_state : Bool
  last_module_present : Bool
deriving DecidableEq, Repr

namespace Notify

/-- Source function `set_led_brightness`; `led` names the handle `fd` was taken from.
System calls: `lseek`, then `write`. -/
def set_led_brightness (env : Env) (led : Led) (fd : Int) (brightness : Int) (w : World) :
    Int × World :=
  if fd < 0 then (-1, w)
  else
    let payload := brightness_payload brightness
    if !env.ok w.clock then
      (-1, w.emit 1 (.brightness led brightness payload .not_written))
    else if !env.ok (w.clock + 1) then
      (-1, w.emit 2 (.brightness led brightness payload .write_failed))
    else
      (0, w.emit 2 (.brightness led brightness payload .done))

/-- Source function `write_sysfs_string`, for the attribute file `attr` of the activity LED.
System calls: `open`, then `write` and `close`. -/
def write_sysfs_string (env : Env) (attr : Attr) (value : List Char) (w : World) :
    Int × World :=
  if env.desc w.clock < 0 then (-1, w.emit 1 (.sysfs attr value .not_written))
  else if !env.ok (w.clock + 1) then (-1, w.emit 3 (.sysfs attr value .write_failed))
  else (0, w.emit 3 (.sysfs attr value .done))

/-- Source function `setup_netdev_trigger`. -/
def setup_netdev_trigger (env : Env) (port : sfp_port) (w : World) : World :=
  let r1 := write_sysfs_string env .trigger ['n', 'e', 't', 'd', 'e', 'v'] w
  if r1.1 < 0 then r1.2
  else
    let r2 := write_sysfs_string env .device_name port.netdev r1.2
    if r2.1 < 0 then r2.2
    else
      let r3 := write_sysfs_string env .tx ['1'] r2.2
      let r4 := write_sysfs_string env .rx ['1'] r3.2
      r4.2

/-- Source function `disable_netdev_trigger`. -/
def disable_netdev_trigger (env : Env) (w : World) : World :=
  (write_sysfs_string env .trigger ['n', 'o', 'n', 'e'] w).2

/-- The three booleans `update_port` computes first: `module_present`, `rx_los` and
`has_signal`. -/
def observe (port : sfp_port) (f : StatusFile) : Bool × Bool × Bool :=
  let module_present := read_module_present port.mod_present_fd f
  let rx_los := read_rx_los port.mod_present_fd f
  let has_signal := module_present && !rx_los
  (module_present, rx_los, has_signal)

/-- First block of `update_port`: module presence change. -/
def update_presence (env : Env) (module_present rx_los has_signal : Bool)
    (port : sfp_port) (w : World) : sfp_port × World :=
  if module_present != port.last_module_present then
    let w :=
      if !module_present then
        let w := disable_netdev_trigger env w
        let w := (set_led_brightness env .link port.link_led_fd LED_OFF w).2
        (set_led_brightness env .activity port.activity_led_fd LED_OFF w).2
      else if !rx_los then
        let w := setup_netdev_trigger env port w
        (set_led_brightness env .link port.link_led_fd LED_MAX w).2
      else
        (set_led_brightness env .activity port.activity_led_fd LED_MAX w).2
    ({ port with last_module_present := module_present, last_carrier_state := has_signal }, w)
  else (port, w)

/-- Second block of `update_port`: optical signal change while the module is present. -/
def update_signal (env : Env) (module_present has_signal : Bool)
    (port : sfp_port) (w : World) : sfp_port × World :=
  if module_present && (has_signal != port.last_carrier_state) then
    let w :=
      if has_signal then
        let w := (set_led_brightness env .link port.link_led_fd LED_MAX w).2
        let w := disable_netdev_trigger env w
        let w := (set_led_brightness env .activity port.activity_led_fd LED_OFF w).2
        setup_netdev_trigger env port w
      else
        let w := disable_netdev_trigger env w
        let w := (set_led_brightness env .link port.link_led_fd LED_OFF w).2
        (set_led_brightness env .activity port.activity_led_fd LED_MAX w).2
    ({ port with last_carrier_state := has_signal }, w)
  else (port, w)

/-- Third block of `update_port`: both LEDs are written OFF while no module is present. -/
def update_absent (env : Env) (module_present : Bool) (port : sfp_port) (w : World) : World :=
  if !module_present then
    let w := (set_led_brightness env .link port.link_led_fd LED_OFF w).2
    (set_led_brightness env .activity port.activity_led_fd LED_OFF w).2
  else w

/-- Source function `update_port`; `f` is the state file as both reads of this tick see it. -/
def update_port (env : Env) (f : StatusFile) (port : sfp_port) (w : World) :
    sfp_port × World :=
  let obs := observe port f
  let r1 := update_presence env obs.1 obs.2.1 obs.2.2 port w
  let r2 := update_signal env obs.1 obs.2.2 r1.1 r1.2
  (r2.1, update_absent env obs.1 r2.1 r2.2)

/-- Source function `cleanup_port`. -/
def cleanup_port (env : Env) (port : sfp_port) (w : World) : sfp_port × World :=
  let r0 : sfp_port × World :=
    if env.inotify_fd ≥ 0 ∧ port.inotify_wd ≥ 0 then
      ({ port with inotify_wd := -1 }, w.emit 1 .rm_watch)
    else (port, w)
  let port := r0.1
  let w := (set_led_brightness env .link port.link_led_fd LED_OFF r0.2).2
  let w := (set_led_brightness env .activity port.activity_led_fd LED_OFF w).2
  let r1 : sfp_port × World :=
    if port.carrier_fd ≥ 0 then ({ port with carrier_fd := -1 }, w.emit 1 (.close .carrier))
    else (port, w)
  let r2 : sfp_port × World :=
    if r1.1.link_led_fd ≥ 0 then
      ({ r1.1 with link_led_fd := -1 }, r1.2.emit 1 (.close .link_led))
    else r1
  let r3 : sfp_port × World :=
    if r2.1.activity_led_fd ≥ 0 then
      ({ r2.1 with activity_led_fd := -1 }, r2.2.emit 1 (.close .activity_led))
    else r2
  if r3.1.mod_present_fd ≥ 0 then
    ({ r3.1 with mod_present_fd := -1 }, r3.2.emit 1 (.close .mod_present))
  else r3

/-- Lines 436 to 460 of `setup_port`: initial state and LED set-up once every handle is
open. -/
def setup_port_state (env : Env) (f : StatusFile) (port : sfp_port) (w : World) :
    sfp_port × World :=
  let port := { port with last_module_present := read_module_present port.mod_present_fd f }
  let port := { port with last_carrier_state := false }
  let w := (set_led_brightness env .link port.link_led_fd LED_OFF w).2
  let w := (set_led_brightness env .activity port.activity_led_fd LED_OFF w).2
  if port.last_module_present then
    let rx_los := read_rx_los port.mod_present_fd f
    if !rx_los then
      let w := setup_netdev_trigger env port w
      (port, (set_led_brightness env .link port.link_led_fd LED_MAX w).2)
    else
      (port, (set_led_brightness env .activity port.activity_led_fd LED_MAX w).2)
  else (port, w)

/-- The `goto cleanup` exit of `setup_port`. -/
def setup_port_fail (env : Env) (port : sfp_port) (w : World) : Int × sfp_port × World :=
  let r := cleanup_port env port w
  (-1, r.1, r.2)

/-- Advance the clock by one system call that records no action (`open`,
`inotify_add_watch`). -/
def World.tick (w : World) : World := { w with clock := w.clock + 1 }

/-- Source function `setup_port`; `f` is the state file as the reads of the start-up see
it.  System calls before the LED writes, in order: `open` of the carrier file,
`inotify_add_watch` (when made), `open` of the state file, of the link LED and of the
activity LED. -/
def setup_port (env : Env) (f : StatusFile) (port : sfp_port) (w : World) :
    Int × sfp_port × World :=
  let r := find_netdev_for_sfp env.dt port.sfp_name port.netdev MAX_NETDEV_NAME
  if r.1 < 0 then (-1, port, w)
  else
    let port := { port with netdev := r.2 }
    if ("/sys/class/net/".toList ++ port.netdev ++ "/carrier".toList).length ≥ PATH_MAX then
      (-1, port, w)
    else
      let port := { port with carrier_fd := env.desc w.clock }
      let w := World.tick w
      let watch : Option (sfp_port × World) :=
        if env.inotify_fd ≥ 0 ∧ port.carrier_fd ≥ 0 then
          if ("/sys/class/net/".toList ++ port.netdev).length ≥ PATH_MAX then none
          else some ({ port with inotify_wd := env.desc w.clock }, World.tick w)
        else some (port, w)
      match watch with
      | none => setup_port_fail env port w
      | some (port, w) =>
        if ("/sys/kernel/debug/".toList ++ port.sfp_name ++ "/state".toList).length
            ≥ PATH_MAX then
          setup_port_fail env port w
        else
          let port := { port with mod_present_fd := env.desc w.clock }
          let w := World.tick w
          if ("/sys/class/leds/".toList ++ port.link_led ++ "/brightness".toList).length
              ≥ PATH_MAX then
            setup_port_fail env port w
          else
            let port := { port with link_led_fd := env.desc w.clock }
            let w := World.tick w
            if ("/sys/class/leds/".toList ++ port.activity_led
                ++ "/brightness".toList).length ≥ PATH_MAX then
              setup_port_fail env port w
            else
              let port := { port with activity_led_fd := env.desc w.clock }
              let w := World.tick w
              if port.carrier_fd < 0 ∨ port.link_led_fd < 0 ∨ port.activity_led_fd < 0 then
                setup_port_fail env port w
              else
                let r := setup_port_state env f port w
                (0, r.1, r.2)

/-- The static initialiser of `ports[0]`. -/
def port0 : sfp_port :=
  { netdev := [], link_led := "sfp0:link".toList, activity_led := "sfp0:activity".toList,
    sfp_name := "sfp-xfi0".toList, carrier_fd := -1, link_led_fd := -1,
    activity_led_fd := -1, mod_present_fd := -1, inotify_wd := -1,
    last_carrier_state := false, last_module_present := false }

end Notify

namespace PollOnly

/-- Source function `set_led_brightness` (poll-only variant); same text as in the
notification variant, with the buffer size written as the literal 4. -/
def set_led_brightness (env : Env) (led : Led) (fd : Int) (brightness : Int) (w : World) :
    Int × World :=
  if fd < 0 then (-1, w)
  else
    let payload := brightness_payload brightness
    if !env.ok w.clock then
      (-1, w.emit 1 (.brightness led brightness payload .not_written))
    else if !env.ok (w.clock + 1) then
      (-1, w.emit 2 (.brightness led brightness payload .write_failed))
    else
      (0, w.emit 2 (.brightness led brightness payload .done))

end PollOnly

/-! ## Start-up of the poll-only daemon -/

namespace PollOnly

/-- Source type `struct sfp_port` (poll-only variant); strings are C strings. -/
structure sfp_port where
  netdev : List Char
  link_led : List Char
  activity_led : List Char
  sfp_name : List Char
  carrier_fd : Int
  link_led_fd : Int
  activity_led_fd : Int
  mod_present_fd : Int
  last_carrier_state : Bool
  last_module_present : Bool
deriving DecidableEq, Repr

/-- The `strtok_r(.., "\n", &saveptr)` loop of `read_module_present` (poll-only variant and
plugin).  `rest` is the C string at `saveptr`; each call skips the newlines in front,
returns NULL at the end of the string, and otherwise cuts the token at the next newline. -/
def strtok_lines (key : List Char) (key_len : Nat) : Nat → List Char → Bool
  | 0, _ => false
  | fuel + 1, rest =>
    let start := rest.dropWhile (fun c => c == '\n')
    if start = [] then false
    else
      let line := start.takeWhile (fun c => c != '\n')
      let after := start.dropWhile (fun c => c != '\n')
      if strncmp_eq line key key_len then
        let value := (line.drop key_len).dropWhile (fun c => c == ' ')
        decide (value.head? = some '1')
      else strtok_lines key key_len fuel (after.drop 1)

/-- Source function `read_module_present` (poll-only variant). -/
def read_module_present (fd : Int) (f : StatusFile) : Bool :=
  if fd < 0 then false
  else if !f.seek_ok then false
  else
    match f.content with
    | none => false
    | some content =>
      let buf := read_bytes (512 - 1) content
      if buf.length = 0 then false
      else strtok_lines MODDEF0_PREFIX 8 512 (c_str buf)

/-- The block `fd = open(path, O_WRONLY); if (fd >= 0) { write(fd, value, len); close(fd); }`
of `setup_netdev_trigger` (poll-only variant), for the attribute file `attr` of the
activity LED; the result of `write` is not tested. -/
def open_write_close (env : Env) (attr : Attr) (value : List Char) (w : World) : World :=
  if env.desc w.clock < 0 then w.emit 1 (.sysfs attr value .not_written)
  else if !env.ok (w.clock + 1) then w.emit 3 (.sysfs attr value .write_failed)
  else w.emit 3 (.sysfs attr value .done)

/-- Source function `setup_netdev_trigger` (poll-only variant): it returns when the trigger
file cannot be opened and goes through the other three files otherwise. -/
def setup_netdev_trigger (env : Env) (port : sfp_port) (w : World) : World :=
  let w1 := open_write_close env .trigger ['n', 'e', 't', 'd', 'e', 'v'] w
  if env.desc w.clock < 0 then w1
  else
    let w2 := open_write_close env .device_name port.netdev w1
    let w3 := open_write_close env .tx ['1'] w2
    open_write_close env .rx ['1'] w3

/-- Source function `setup_port` (poll-only variant).  System calls before the LED writes:
the four `open`, of the carrier file, the state file, the link LED and the activity LED. -/
def setup_port (env : Env) (f : StatusFile) (port : sfp_port) (w : World) :
    Int × sfp_port × World :=
  let r := find_netdev_for_sfp env.dt port.sfp_name port.netdev MAX_NETDEV_NAME
  if r.1 < 0 then (-1, port, w)
  else
    let port := { port with netdev := r.2 }
    let port := { port with carrier_fd := env.desc w.clock }
    let port := { port with mod_present_fd := env.desc (w.clock + 1) }
    let port := { port with link_led_fd := env.desc (w.clock + 2) }
    let port := { port with activity_led_fd := env.desc (w.clock + 3) }
    let w : World := { w with clock := w.clock + 4 }
    if port.carrier_fd < 0 ∨ port.link_led_fd < 0 ∨ port.activity_led_fd < 0 then
      (-1, port, w)
    else
      let port := { port with last_module_present := read_module_present port.mod_present_fd f }
      let port := { port with last_carrier_state := false }
      let w := (set_led_brightness env .link port.link_led_fd 0 w).2
      let w := (set_led_brightness env .activity port.activity_led_fd 0 w).2
      if port.last_module_present then (0, port, setup_netdev_trigger env port w)
      else (0, port, w)

/-- The body of the loop `Setup all ports` of `main` (poll-only variant) for one port. -/
def main_setup_port (env : Env) (f : StatusFile) (port : sfp_port) (w : World) :
    sfp_port × World :=
  let r := setup_port env f port w
  if r.1 < 0 then (r.2.1, r.2.2)
  else (r.2.1, setup_netdev_trigger env r.2.1 r.2.2)

/-- The static initialiser of `ports[0]` (poll-only variant). -/
def port0 : sfp_port :=
  { netdev := [], link_led := "sfp0:link".toList, activity_led := "sfp0:activity".toList,
    sfp_name := "sfp-xfi0".toList, carrier_fd := -1, link_led_fd := -1,
    activity_led_fd := -1, mod_present_fd := -1,
    last_carrier_state := false, last_module_present := false }

end PollOnly

/-! ## Clean-up of the plugin -/

namespace Plugin

/-- Source type `sfp_led_port_t`; a `u8 *` vector is `none` when NULL, the `u8` flags are
booleans. -/
structure sfp_led_port_t where
  vpp_interface_name : Option (List Char)
  linux_interface_name : Option (List Char)
  link_led_path : Option (List Char)
  activity_led_path : Option (List Char)
  sfp_debug_path : Option (List Char)
  sw_if_index : Nat
  link_led_fd : Int
  activity_led_fd : Int
  sfp_debug_fd : Int
  last_link_state : Bool
  last_module_present : Bool
  last_rx_packets : Nat
  last_tx_packets : Nat
  activity_led_state : Bool
  activity_blink_countdown : Nat
  skip_activity_monitoring : Bool
deriving DecidableEq, Repr

/-- The three descriptors a plugin port owns. -/
inductive Handle where
  | link_led
  | activity_led
  | sfp_debug
deriving DecidableEq, Repr

/-- One externally visible action of the plugin; `port` is the index in `slm->ports`. -/
inductive Act where
  /-- The sequence `snprintf`, `lseek`, `write` of a decimal brightness on an LED handle. -/
  | brightness (port : Nat) (led : Led) (brightness : Int) (payload : Option (List Char))
      (o : Outcome)
  /-- Call `close` on a handle of the port. -/
  | close (port : Nat) (h : Handle)
  /-- The block `open`, `write`, `close` on the sysfs file `path`. -/
  | sysfs (port : Nat) (path : List Char) (value : List Char) (o : Outcome)
deriving DecidableEq, Repr

/-- The run so far: number of system calls made and the actions issued, oldest first. -/
structure World where
  clock : Nat
  trace : List Act
deriving DecidableEq, Repr

/-- Advance the clock by `n` system calls and record one action. -/
def World.emit (w : World) (n : Nat) (a : Act) : World :=
  { clock := w.clock + n, trace := w.trace ++ [a] }

/-- The bytes handed to `write(fd, buf, len)` after
`snprintf(buf, sizeof(buf), "%d\n", brightness)` with the plugin's 8-byte buffer. -/
def brightness_payload (brightness : Int) : Option (List Char) :=
  let r := snprintf 8 (fmt_d brightness ++ ['\n'])
  if r.2 ≤ 8 then some ((r.1 ++ [NUL]).take r.2) else none

/-- The block of `sfp_led_cleanup` for one LED handle: when the handle is not negative,
write OFF (`lseek`, then `write` if the rewind succeeded, its result not tested) and
`close`.  The handle field is left as it is. -/
def cleanup_led (env : Env) (i : Nat) (led : Led) (h : Handle) (fd : Int) (w : World) :
    World :=
  if fd ≥ 0 then
    let w :=
      if !env.ok w.clock then
        w.emit 1 (.brightness i led LED_OFF (brightness_payload LED_OFF) .not_written)
      else if !env.ok (w.clock + 1) then
        w.emit 2 (.brightness i led LED_OFF (brightness_payload LED_OFF) .write_failed)
      else
        w.emit 2 (.brightness i led LED_OFF (brightness_payload LED_OFF) .done)
    w.emit 1 (.close i h)
  else w

/-- The body of the `vec_foreach` of `sfp_led_cleanup` for the port of index `i`. -/
def cleanup_port (env : Env) (i : Nat) (port : sfp_led_port_t) (w : World) : World :=
  let w := cleanup_led env i .link .link_led port.link_led_fd w
  let w := cleanup_led env i .activity .activity_led port.activity_led_fd w
  if port.sfp_debug_fd ≥ 0 then w.emit 1 (.close i .sfp_debug) else w

/-- The `vec_foreach` of `sfp_led_cleanup` from index `i` on. -/
def cleanup_from (env : Env) : Nat → List sfp_led_port_t → World → World
  | _, [], w => w
  | i, port :: rest, w => cleanup_from env (i + 1) rest (cleanup_port env i port w)

/-- Source function `sfp_led_cleanup`: the ports `slm->ports`, which it does not modify,
and the run. -/
def sfp_led_cleanup (env : Env) (ports : List sfp_led_port_t) (w : World) :
    List sfp_led_port_t × World :=
  (ports, cleanup_from env 0 ports w)

/-- A port as `sfp_led_config` creates it, with the three handles then set as given. -/
def port_with (link_led_fd activity_led_fd sfp_debug_fd : Int) : sfp_led_port_t :=
  { vpp_interface_name := some "TenGigabitEthernet0".toList, linux_interface_name := none,
    link_led_path := none, activity_led_path := none, sfp_debug_path := none,
    sw_if_index := 4294967295, link_led_fd := link_led_fd,
    activity_led_fd := activity_led_fd, sfp_debug_fd := sfp_debug_fd,
    last_link_state := false, last_module_present := false, last_rx_packets := 0,
    last_tx_packets := 0, activity_led_state := false, activity_blink_countdown := 0,
    skip_activity_monitoring := false }

end Plugin

/-! ## Poll loop of the poll-only daemon -/

namespace PollOnly

/-- Source function `read_carrier_state` (poll-only variant); `f` is the carrier file as the
read of this tick sees it. -/
def read_carrier_state (fd : Int) (f : StatusFile) : Bool :=
  if fd < 0 then false
  else if !f.seek_ok then false
  else
    match f.content with
    | none => false
    | some content =>
      let buf := read_bytes (4 - 1) content
      if buf.length = 0 then false
      else decide (buf.head? = some '1')

/-- First block of `update_port` (poll-only variant): module presence change. -/
def update_presence (env : Env) (module_present : Bool) (port : sfp_port) (w : World) :
    sfp_port × World :=
  if module_present != port.last_module_present then
    let w :=
      if !module_present then
        let w := open_write_close env .trigger ['n', 'o', 'n', 'e'] w
        let w := (set_led_brightness env .link port.link_led_fd 0 w).2
        (set_led_brightness env .activity port.activity_led_fd 0 w).2
      else setup_netdev_trigger env port w
    ({ port with last_module_present := module_present, last_carrier_state := false }, w)
  else (port, w)

/-- Second block of `update_port` (poll-only variant): carrier change while the module is
present. -/
def update_carrier (env : Env) (module_present carrier_state : Bool) (port : sfp_port)
    (w : World) : sfp_port × World :=
  if module_present && (carrier_state != port.last_carrier_state) then
    ({ port with last_carrier_state := carrier_state },
      (set_led_brightness env .link port.link_led_fd (if carrier_state then 255 else 0) w).2)
  else (port, w)

/-- Third block of `update_port` (poll-only variant): `Keep LEDs off if module is not
present`. -/
def update_absent (env : Env) (module_present : Bool) (port : sfp_port) (w : World) : World :=
  if !module_present then
    let w := (set_led_brightness env .link port.link_led_fd 0 w).2
    (set_led_brightness env .activity port.activity_led_fd 0 w).2
  else w

/-- Source function `update_port` (poll-only variant); `carrier` and `f` are the carrier
file and the state file as the reads of this tick see them. -/
def update_port (env : Env) (carrier f : StatusFile) (port : sfp_port) (w : World) :
    sfp_port × World :=
  let carrier_state := read_carrier_state port.carrier_fd carrier
  let module_present := read_module_present port.mod_present_fd f
  let r1 := update_presence env module_present port w
  let r2 := update_carrier env module_present carrier_state r1.1 r1.2
  (r2.1, update_absent env module_present r2.1 r2.2)

/-- The ticks of the main loop for one port (poll-only variant): one `update_port` per
pair of carrier file and state file, in order. -/
def poll (env : Env) : List (StatusFile × StatusFile) → sfp_port → World → sfp_port × World
  | [], port, w => (port, w)
  | s :: rest, port, w =>
    poll env rest (update_port env s.1 s.2 port w).1 (update_port env s.1 s.2 port w).2

end PollOnly

/-! ## Process node of the plugin -/

/-- Offset of the last occurrence of `c` in a C string, as `strrchr` finds it. -/
def strrchr (s : List Char) (c : Char) : Option Nat :=
  match s with
  | [] => none
  | x :: xs =>
    match strrchr xs c with
    | some k => some (k + 1)
    | none => if x = c then some 0 else none

namespace Plugin

/-- What the host framework reports for the interface of a port in one tick: the two flags
and the two combined packet counters (`u64`). -/
structure IfState where
  admin_up : Bool
  link_up : Bool
  rx_packets : Nat
  tx_packets : Nat
deriving DecidableEq, Repr

/-- The value `~0` of a `u32`, the unresolved `sw_if_index`. -/
def NO_SW_IF_INDEX : Nat := 4294967295

/-- Source function `read_module_present` (plugin); same text as in the poll-only daemon. -/
def read_module_present (fd : Int) (f : StatusFile) : Bool :=
  if fd < 0 then false
  else if !f.seek_ok then false
  else
    match f.content with
    | none => false
    | some content =>
      let buf := read_bytes (512 - 1) content
      if buf.length = 0 then false
      else PollOnly.strtok_lines MODDEF0_PREFIX 8 512 (c_str buf)

/-- Source function `set_led_brightness` (plugin), for the port of index `i`. -/
def set_led_brightness (env : Env) (i : Nat) (led : Led) (fd : Int) (brightness : Int)
    (w : World) : Int × World :=
  if fd < 0 then (-1, w)
  else
    let payload := brightness_payload brightness
    if !env.ok w.clock then
      (-1, w.emit 1 (.brightness i led brightness payload .not_written))
    else if !env.ok (w.clock + 1) then
      (-1, w.emit 2 (.brightness i led brightness payload .write_failed))
    else
      (0, w.emit 2 (.brightness i led brightness payload .done))

/-- Source function `disable_netdev_trigger` (plugin); the path vector is read as a C
string. -/
def disable_netdev_trigger (env : Env) (i : Nat) (port : sfp_led_port_t) (w : World) :
    World :=
  match port.activity_led_path with
  | none => w
  | some path =>
    match strrchr path '/' with
    | none => w
    | some k =>
      if !strncmp_eq (path.drop k) "/brightness".toList 11 then w
      else
        let file := (snprintf 256 (path.take k ++ "/trigger".toList)).1
        if env.desc w.clock < 0 then w.emit 1 (.sysfs i file "none".toList .not_written)
        else if !env.ok (w.clock + 1) then
          w.emit 3 (.sysfs i file "none".toList .write_failed)
        else w.emit 3 (.sysfs i file "none".toList .done)

/-- First block of the per-port body of `sfp_led_process`: every 20th poll, module presence
change. -/
def process_presence (env : Env) (poll_count : Nat) (module_present : Bool) (i : Nat)
    (port : sfp_led_port_t) (w : World) : sfp_led_port_t × World :=
  if poll_count % 20 = 0 then
    if module_present != port.last_module_present then
      let r : sfp_led_port_t × World :=
        if !module_present then
          let w := disable_netdev_trigger env i port w
          let w := (set_led_brightness env i .link port.link_led_fd LED_OFF w).2
          let w := (set_led_brightness env i .activity port.activity_led_fd LED_OFF w).2
          ({ port with activity_led_state := false }, w)
        else
          ({ port with last_rx_packets := 0, last_tx_packets := 0,
                       activity_led_state := false }, w)
      ({ r.1 with last_module_present := module_present }, r.2)
    else (port, w)
  else (port, w)

/-- The branch `admin_up && link_up` of the per-port body: the software blink driven by the
packet counters. -/
def process_counters (env : Env) (ifs : IfState) (i : Nat) (port : sfp_led_port_t)
    (w : World) : sfp_led_port_t × World :=
  let r : sfp_led_port_t × World :=
    if ifs.rx_packets != port.last_rx_packets || ifs.tx_packets != port.last_tx_packets then
      if port.activity_led_state then
        ({ port with activity_led_state := false },
          (set_led_brightness env i .activity port.activity_led_fd LED_OFF w).2)
      else
        ({ port with activity_led_state := true },
          (set_led_brightness env i .activity port.activity_led_fd LED_MAX w).2)
    else if port.activity_led_state then
      ({ port with activity_led_state := false },
        (set_led_brightness env i .activity port.activity_led_fd LED_OFF w).2)
    else (port, w)
  ({ r.1 with last_rx_packets := ifs.rx_packets, last_tx_packets := ifs.tx_packets }, r.2)

/-- Second block of the per-port body of `sfp_led_process`: the activity LED. -/
def process_activity (env : Env) (module_present : Bool) (ifs : IfState) (i : Nat)
    (port : sfp_led_port_t) (w : World) : sfp_led_port_t × World :=
  if module_present && port.sw_if_index != NO_SW_IF_INDEX then
    if ifs.admin_up && ifs.link_up then process_counters env ifs i port w
    else
      ({ port with activity_led_state := true, last_rx_packets := 0, last_tx_packets := 0 },
        (set_led_brightness env i .activity port.activity_led_fd LED_MAX w).2)
  else if port.activity_led_state then
    ({ port with activity_led_state := false },
      (set_led_brightness env i .activity port.activity_led_fd LED_OFF w).2)
  else (port, w)

/-- The body of the `vec_foreach` of `sfp_led_process` for the port of index `i`, in the
tick whose `poll_count` (already incremented) is given; `f` is the state file and `ifs`
the interface state as this tick sees them. -/
def process_port (env : Env) (poll_count : Nat) (f : StatusFile) (ifs : IfState) (i : Nat)
    (port : sfp_led_port_t) (w : World) : sfp_led_port_t × World :=
  let module_present := read_module_present port.sfp_debug_fd f
  let r1 := process_presence env poll_count module_present i port w
  process_activity env module_present ifs i r1.1 r1.2

end Plugin

/-! ## Notions the statements use -/

/-- The actions issued between two points of a run. -/
def issued (before after : World) : List Act := after.trace.drop before.trace.length

/-- The trigger the activity LED is left with by a trace: the value of the last completed
write to its `trigger` attribute, `init` when there is none. -/
def trigger_after (init : List Char) (trace : List Act) : List Char :=
  trace.foldl (fun cur a => match a with
    | .sysfs .trigger v .done => v
    | _ => cur) init

/-- The last brightness written to an LED by a trace, `none` when there is none. -/
def brightness_after (led : Led) (trace : List Act) : Option Int :=
  trace.foldl (fun cur a => match a with
    | .brightness l v _ .done => if l = led then some v else cur
    | _ => cur) none

/-- An action that is a brightness call with value `LED_OFF`. -/
def Act.is_off_call : Act → Bool
  | .brightness _ v _ _ => v == LED_OFF
  | _ => false

/-- The newline-separated lines of a text. -/
def text_lines : List Char → List (List Char)
  | [] => [[]]
  | c :: cs =>
    if c = '\n' then [] :: text_lines cs
    else (c :: (text_lines cs).headD []) :: (text_lines cs).tail

/-- The first line of a text that starts with `key`. -/
def first_line_with (key : List Char) (text : List Char) : Option (List Char) :=
  (text_lines text).find? (fun l => key.isPrefixOf l)

/-- The first character of a `key: value` line after the key and any run of spaces. -/
def value_char (key : List Char) (line : List Char) : Option Char :=
  ((line.drop key.length).dropWhile (fun c => c == ' ')).head?

/-- The state file cannot be read: handle absent, rewind fails, read fails or returns zero
bytes. -/
def Unreadable (fd : Int) (f : StatusFile) : Prop :=
  fd < 0 ∨ f.seek_ok = false ∨ f.content = none ∨ f.content = some []

/-- The content of the state file has no line starting with `key`. -/
def NoKeyLine (key : List Char) (f : StatusFile) : Prop :=
  ∀ c, f.content = some c → first_line_with key c = none

/-- Whether a `soc` entry and one of its entries are named `fman@*` / `ethernet@*` and the
entry's `sfp` property reads as `p`, in the notification variant. -/
def Notify.is_match (p : Nat) (e : EthNode) : Bool :=
  strncmp_eq e.d_name ETHERNET_PREFIX ETHERNET_PREFIX_LEN && (Notify.read_dt_u32 e.sfp == p)

/-- The endpoints of a fixture whose `sfp` property equals `p`, in scan order: the entries
named `ethernet@*` of the readable `soc` entries named `fman@*`. -/
def Notify.matching_endpoints (p : Nat) (soc : List SocNode) : List EthNode :=
  soc.flatMap (fun n =>
    if strncmp_eq n.d_name FMAN_PREFIX FMAN_PREFIX_LEN then
      (n.children.getD []).filter (Notify.is_match p)
    else [])

/-- Two `soc` entries that differ only in the order of their entries. -/
def SameNode (a b : SocNode) : Prop :=
  a.d_name = b.d_name ∧
    match a.children, b.children with
    | some x, some y => x.Perm y
    | none, none => True
    | _, _ => False

/-- Fixture `soc2` is fixture `soc1` with the `soc` entries in another order and the
entries inside each of them in another order. -/
def Reordered (soc1 soc2 : List SocNode) : Prop :=
  ∃ mid, soc1.Perm mid ∧ List.Forall₂ SameNode mid soc2

/-- Two runs of `update_port` in succession on the same snapshot. -/
def Notify.update_port_twice (env : Env) (f : StatusFile) (port : sfp_port) (w : World) :
    sfp_port × World :=
  Notify.update_port env f (Notify.update_port env f port w).1
    (Notify.update_port env f port w).2

/-- The interface name the resolver writes for a `cell-index` within the bound. -/
def Notify.netdev_for (out_size : Nat) (cell_index : Nat) : List Char :=
  (snprintf out_size (NETDEV_PREFIX ++ fmt_u (cell_index + 1))).1

/-- The handles of a port are consistent: a port that remembers a module has its state
file open, and a port whose state file is open has both LEDs open.  It holds for the static
initialiser and is kept by `setup_port` and `update_port`. -/
def Notify.handles_consistent (port : sfp_port) : Prop :=
  (port.last_module_present = true → 0 ≤ port.mod_present_fd) ∧
  (0 ≤ port.mod_present_fd → 0 ≤ port.link_led_fd ∧ 0 ≤ port.activity_led_fd)

/-- The ticks of the main loop for one port: one `update_port` per snapshot, in order. -/
def Notify.poll (env : Env) : List StatusFile → sfp_port → World → sfp_port × World
  | [], port, w => (port, w)
  | f :: fs, port, w =>
    Notify.poll env fs (Notify.update_port env f port w).1 (Notify.update_port env f port w).2

/-- An action that lights nothing and binds nothing: a brightness call with value 0, a
`close` or the removal of the watch; no write to an attribute of the activity LED. -/
def Act.keeps_dark : Act → Bool
  | .brightness _ v _ _ => v == 0
  | .sysfs _ _ _ => false
  | .close _ => true
  | .rm_watch => true

/-- A run of the poll-only daemon on one port: `setup_port` on the start-up state file,
then one `update_port` per pair of carrier file and state file. -/
def PollOnly.run (env : Env) (f0 : StatusFile) (snaps : List (StatusFile × StatusFile))
    (port : PollOnly.sfp_port) (w : World) : PollOnly.sfp_port × World :=
  PollOnly.poll env snaps (PollOnly.setup_port env f0 port w).2.1
    (PollOnly.setup_port env f0 port w).2.2

/-- The link LED shows what the port remembers (poll-only variant): both LED handles are
open, a port that remembers no module remembers no carrier, and the last brightness
written to the link LED is 255 when module and carrier are remembered and 0 otherwise. -/
def PollOnly.link_led_tracks (port : PollOnly.sfp_port) (w : World) : Prop :=
  0 ≤ port.link_led_fd ∧ 0 ≤ port.activity_led_fd ∧
  (port.last_module_present = false → port.last_carrier_state = false) ∧
  brightness_after .link w.trace =
    some (if port.last_module_present && port.last_carrier_state then 255 else 0)

/-- The presence check of this tick detects an insertion: it is a 20th poll and the port
remembers no module (the module being present). -/
def Plugin.insertion_tick (poll_count : Nat) (port : Plugin.sfp_led_port_t) : Bool :=
  decide (poll_count % 20 = 0) && !port.last_module_present

/-- Whether the activity LED is ON when the counters are compared: the stored state, reset
by an insertion detected in this tick. -/
def Plugin.led_on_before (poll_count : Nat) (port : Plugin.sfp_led_port_t) : Bool :=
  if Plugin.insertion_tick poll_count port then false else port.activity_led_state

/-- Whether the receive or the transmit packet count differs from the stored one, the
stored counts being reset to 0 by an insertion detected in this tick. -/
def Plugin.counts_changed (poll_count : Nat) (ifs : Plugin.IfState)
    (port : Plugin.sfp_led_port_t) : Bool :=
  ifs.rx_packets != (if Plugin.insertion_tick poll_count port then 0
                     else port.last_rx_packets) ||
  ifs.tx_packets != (if Plugin.insertion_tick poll_count port then 0
                     else port.last_tx_packets)

/-! ## Fixtures -/

/-- A property file holding the 32-bit big-endian integer `b0 b1 b2 b3`. -/
def dt_file (b0 b1 b2 b3 : Fin 256) : DtFile := some [b0, b1, b2, b3]

/-- A device tree with slot phandle 7 and one `fman@` node holding the given endpoints. -/
def dt_with (endpoints : List EthNode) : DeviceTree :=
  { phandle := fun _ => dt_file 0 0 0 7,
    soc := some [⟨"fman@1a00000".toList, some endpoints⟩] }

/-- An environment in which every system call succeeds, over the given device tree. -/
def env_ok (dt : DeviceTree) : Env :=
  { ok := fun _ => true, desc := fun n => 3 + n, inotify_fd := 3, dt := dt }

/-- State file of a present module receiving an optical signal. -/
def blob_signal : StatusFile := ⟨true, some "moddef0: 1\nrx_los: 0\n".toList⟩

/-- State file of a present module without optical signal. -/
def blob_los : StatusFile := ⟨true, some "moddef0: 1\nrx_los: 1\n".toList⟩

/-- State file of an empty cage. -/
def blob_absent : StatusFile := ⟨true, some "moddef0: 0\nrx_los: 1\n".toList⟩

/-- State file of a present module whose `rx_los` line has a non-digit value. -/
def blob_garbled : StatusFile := ⟨true, some "moddef0: 1\nrx_los: x\n".toList⟩

/-- The empty run. -/
def World.init : World := ⟨0, []⟩

/-- An environment in which every system call succeeds and the slot resolves to the
endpoint with `cell-index` 8. -/
def env_resolved : Env :=
  env_ok (dt_with [⟨"ethernet@e0000".toList, dt_file 0 0 0 7, dt_file 0 0 0 8⟩])

/-- Start-up of port 0 with a module present and a signal. -/
def startup_signal : Int × sfp_port × World :=
  Notify.setup_port env_resolved blob_signal Notify.port0 World.init

/-- The tick after `startup_signal`, on a snapshot with the module present and `rx_los`
set. -/
def startup_then_los : sfp_port × World :=
  Notify.update_port env_resolved blob_los startup_signal.2.1 startup_signal.2.2

/-- A port with every handle open and an empty memory. -/
def port_open : sfp_port :=
  { Notify.port0 with
    carrier_fd := 4, mod_present_fd := 5, link_led_fd := 6, activity_led_fd := 7 }

/-- An environment in which the first `n` system calls succeed and every later `lseek` or
`write` fails, as calls on a closed descriptor do. -/
def env_until (n : Nat) : Env :=
  { ok := fun k => decide (k < n), desc := fun k => 3 + k, inotify_fd := 3, dt := dt_with [] }

/-- One invocation of `sfp_led_cleanup` on a port with its three handles open. -/
def Plugin.cleanup_once : List Plugin.sfp_led_port_t × Plugin.World :=
  Plugin.sfp_led_cleanup (env_until 7) [Plugin.port_with 10 11 12] ⟨0, []⟩

/-- A second invocation of `sfp_led_cleanup` after `Plugin.cleanup_once`. -/
def Plugin.cleanup_twice : List Plugin.sfp_led_port_t × Plugin.World :=
  Plugin.sfp_led_cleanup (env_until 7) Plugin.cleanup_once.1 Plugin.cleanup_once.2

/-- An environment resolving the slot in which every call succeeds except the `open` of the
debugfs state file, the third system call of `setup_port`. -/
def env_no_state : Env :=
  { ok := fun _ => true, desc := fun n => if n = 2 then -1 else 3 + n, inotify_fd := 3,
    dt := dt_with [⟨"ethernet@e0000".toList, dt_file 0 0 0 7, dt_file 0 0 0 8⟩] }

/-- Carrier file of an interface whose link is up. -/
def carrier_up : StatusFile := ⟨true, some "1\n".toList⟩

/-- Carrier file of an interface whose link is down. -/
def carrier_down : StatusFile := ⟨true, some "0\n".toList⟩

/-- A plugin port with its handles open, its interface resolved, a module remembered, the
activity LED ON and 5 packets stored in each direction. -/
def Plugin.port_blinking : Plugin.sfp_led_port_t :=
  { Plugin.port_with 10 11 12 with
    sw_if_index := 1, last_module_present := true, activity_led_state := true,
    last_rx_packets := 5, last_tx_packets := 5 }

/-- A plugin port with its handles open and its interface resolved, as it is before the
first presence check. -/
def Plugin.port_resolved : Plugin.sfp_led_port_t :=
  { Plugin.port_with 10 11 12 with sw_if_index := 1 }

/-! ## Theorems -/

/-! ### Binary device-tree reader -/

/-- C7: on the little-endian target `read_dt_u32` returns `b0*2^24 + b1*2^16 + b2*2^8 + b3`
for every property file that holds at least the four bytes `b0 b1 b2 b3`, and 0 for a path
that cannot be opened or a file that yields fewer than four bytes. -/
theorem read_dt_u32_big_endian (f : DtFile) :
    (∀ (b0 b1 b2 b3 : Fin 256) (rest : List (Fin 256)), f = some (b0 :: b1 :: b2 :: b3 :: rest) →
        Notify.read_dt_u32 f = b0.val * 2 ^ 24 + b1.val * 2 ^ 16 + b2.val * 2 ^ 8 + b3.val) ∧
    ((f = none ∨ ∃ content, f = some content ∧ content.length < 4) →
        Notify.read_dt_u32 f = 0) := by
  refine ⟨?_, ?_⟩
  · rintro b0 b1 b2 b3 rest rfl
    have h0 := b0.isLt
    have h1 := b1.isLt
    have h2 := b2.isLt
    have h3 := b3.isLt
    simp only [Notify.read_dt_u32, read_bytes, List.take_succ_cons, List.take_zero, bswap32,
      load_u32]
    omega
  · rintro (rfl | ⟨content, rfl, hlen⟩)
    · rfl
    · match content, hlen with
      | [], _ => rfl
      | [_], _ => rfl
      | [_, _], _ => rfl
      | [_, _, _], _ => rfl
      | _ :: _ :: _ :: _ :: _, h => simp only [List.length_cons] at h; omega

/-- Witness of C7: the bytes `00 00 01 02` decode to 258, and a two-byte file and a missing
file read as 0. -/
theorem read_dt_u32_big_endian_witness :
    Notify.read_dt_u32 (some [0, 0, 1, 2]) = 258 ∧ Notify.read_dt_u32 (some [1, 2]) = 0 ∧
      Notify.read_dt_u32 none = 0 :=
  ⟨(read_dt_u32_big_endian (some [0, 0, 1, 2])).1 0 0 1 2 [] rfl,
   (read_dt_u32_big_endian (some [1, 2])).2 (Or.inr ⟨[1, 2], rfl, by decide⟩),
   (read_dt_u32_big_endian none).2 (Or.inl rfl)⟩

/-! ### LED brightness formatting -/

/-- C3, evaluated at `LED_MAX`: for brightness 255 the four-byte buffer cannot hold the
text `255` with its newline and the terminating NUL, so `set_led_brightness` of either
stand-alone daemon hands `write` the bytes `2 5 5 NUL`: the newline is missing and a NUL
byte is written in its place. -/
theorem set_led_brightness_max_payload :
    fmt_d LED_MAX ++ ['\n'] = ['2', '5', '5', '\n'] ∧
    brightness_payload LED_MAX = some ['2', '5', '5', NUL] ∧
    (Notify.set_led_brightness (env_ok (dt_with [])) .link 5 LED_MAX World.init).2.trace
      = [.brightness .link 255 (some ['2', '5', '5', NUL]) .done] ∧
    (PollOnly.set_led_brightness (env_ok (dt_with [])) .link 5 LED_MAX World.init).2.trace
      = [.brightness .link 255 (some ['2', '5', '5', NUL]) .done] := by
  decide

/-! ### Resolver, notification variant -/

/-- The inner loop selects the first matching entry whose `cell-index` is within the
bound. -/
theorem scan_fman_eq (p : Nat) (es : List EthNode) :
    Notify.scan_fman p es =
      ((es.filter (Notify.is_match p)).find?
        (fun e => decide (Notify.read_dt_u32 e.cell_index ≤ 1000))).map
        (fun e => Notify.read_dt_u32 e.cell_index) := by
  induction es with
  | nil => rfl
  | cons e rest ih =>
    unfold Notify.scan_fman
    by_cases hn : strncmp_eq e.d_name ETHERNET_PREFIX ETHERNET_PREFIX_LEN = true
    · by_cases hs : Notify.read_dt_u32 e.sfp = p
      · by_cases hc : Notify.read_dt_u32 e.cell_index ≤ 1000
        · have hc' : ¬ Notify.read_dt_u32 e.cell_index > 1000 := by omega
          simp [hn, hs, hc, hc', Notify.is_match, List.filter_cons, List.find?_cons]
        · have hc' : Notify.read_dt_u32 e.cell_index > 1000 := by omega
          simp [hn, hs, hc, hc', Notify.is_match, List.filter_cons, List.find?_cons]
          rw [ih]
          simp [Notify.is_match, hs]
      · simp [hn, hs, Notify.is_match, List.filter_cons]
        rw [ih]
        simp [Notify.is_match]
    · simp [hn, Notify.is_match, List.filter_cons]
      rw [ih]
      simp [Notify.is_match]

/-- The two nested loops select the first matching endpoint, in scan order, whose
`cell-index` is within the bound. -/
theorem scan_soc_eq (p : Nat) (soc : List SocNode) :
    Notify.scan_soc p soc =
      ((Notify.matching_endpoints p soc).find?
        (fun e => decide (Notify.read_dt_u32 e.cell_index ≤ 1000))).map
        (fun e => Notify.read_dt_u32 e.cell_index) := by
  induction soc with
  | nil => rfl
  | cons n rest ih =>
    unfold Notify.scan_soc
    simp only [Notify.matching_endpoints, List.flatMap_cons] at ih ⊢
    by_cases hn : strncmp_eq n.d_name FMAN_PREFIX FMAN_PREFIX_LEN = true
    · cases hch : n.children with
      | none => simp [hn, ih]
      | some entries =>
        simp only [hn, Bool.not_true, Bool.false_eq_true, if_false, if_true, Option.getD_some,
          List.find?_append, scan_fman_eq]
        cases hf : List.find? (fun e => decide (Notify.read_dt_u32 e.cell_index ≤ 1000))
            (List.filter (Notify.is_match p) entries) with
        | none => simp [ih]
        | some e => simp
    · simp [hn, ih]

/-- The result of the resolver on a readable tree with a non-zero slot phandle: it is built
from the first matching endpoint, in scan order, whose `cell-index` is at most 1000, and
the call fails, leaving the buffer alone, when there is none. -/
theorem find_netdev_for_sfp_eq (dt : DeviceTree) (sfp_name buf : List Char) (out_size : Nat)
    (soc : List SocNode) (hp : Notify.read_dt_u32 (dt.phandle sfp_name) ≠ 0)
    (hsoc : dt.soc = some soc) :
    Notify.find_netdev_for_sfp dt sfp_name buf out_size =
      match (Notify.matching_endpoints (Notify.read_dt_u32 (dt.phandle sfp_name)) soc).find?
          (fun e => decide (Notify.read_dt_u32 e.cell_index ≤ 1000)) with
      | some e =>
        (0, (snprintf out_size
              (NETDEV_PREFIX ++ fmt_u (Notify.read_dt_u32 e.cell_index + 1))).1)
      | none => (-1, buf) := by
  simp only [Notify.find_netdev_for_sfp, hp, if_false, hsoc, scan_soc_eq]
  cases hf : List.find? (fun e => decide (Notify.read_dt_u32 e.cell_index ≤ 1000))
      (Notify.matching_endpoints (Notify.read_dt_u32 (dt.phandle sfp_name)) soc) with
  | none => rfl
  | some e =>
    have hle : Notify.read_dt_u32 e.cell_index ≤ 1000 := by
      simpa using List.find?_some hf
    have : (Notify.read_dt_u32 e.cell_index + 1) % 4294967296
        = Notify.read_dt_u32 e.cell_index + 1 := Nat.mod_eq_of_lt (by omega)
    simp [this]

/-- C9: in the notification variant's `find_netdev_for_sfp`, on a readable tree with a
non-zero slot phandle, (1) a successful result is always built from a matching endpoint
whose `cell-index` is at most 1000, never from one above the bound; (2) matching endpoints
above the bound are passed over and the scan goes on, so that the first later matching
endpoint within the bound is selected; (3) if every matching endpoint exceeds the bound,
resolution fails and the buffer is unchanged. -/
theorem cell_index_bound_skips (dt : DeviceTree) (sfp_name buf : List Char) (out_size : Nat)
    (soc : List SocNode) (hp : Notify.read_dt_u32 (dt.phandle sfp_name) ≠ 0)
    (hsoc : dt.soc = some soc) :
    (∀ r, Notify.find_netdev_for_sfp dt sfp_name buf out_size = (0, r) →
      ∃ e ∈ Notify.matching_endpoints (Notify.read_dt_u32 (dt.phandle sfp_name)) soc,
        Notify.read_dt_u32 e.cell_index ≤ 1000 ∧
        r = Notify.netdev_for out_size (Notify.read_dt_u32 e.cell_index)) ∧
    (∀ pre e post,
      Notify.matching_endpoints (Notify.read_dt_u32 (dt.phandle sfp_name)) soc
        = pre ++ e :: post →
      (∀ x ∈ pre, Notify.read_dt_u32 x.cell_index > 1000) →
      Notify.read_dt_u32 e.cell_index ≤ 1000 →
      Notify.find_netdev_for_sfp dt sfp_name buf out_size
        = (0, Notify.netdev_for out_size (Notify.read_dt_u32 e.cell_index))) ∧
    ((∀ e ∈ Notify.matching_endpoints (Notify.read_dt_u32 (dt.phandle sfp_name)) soc,
        Notify.read_dt_u32 e.cell_index > 1000) →
      Notify.find_netdev_for_sfp dt sfp_name buf out_size = (-1, buf)) := by
  unfold Notify.netdev_for
  have heq := find_netdev_for_sfp_eq dt sfp_name buf out_size soc hp hsoc
  refine ⟨?_, ?_, ?_⟩
  · intro r hr
    rw [heq] at hr
    cases hf : List.find? (fun e => decide (Notify.read_dt_u32 e.cell_index ≤ 1000))
        (Notify.matching_endpoints (Notify.read_dt_u32 (dt.phandle sfp_name)) soc) with
    | none =>
      rw [hf] at hr
      simp at hr
    | some e =>
      rw [hf] at hr
      refine ⟨e, List.mem_of_find?_eq_some hf, by simpa using List.find?_some hf, ?_⟩
      exact (congrArg Prod.snd hr).symm
  · intro pre e post hc hpre he
    rw [heq]
    have hf : List.find? (fun e => decide (Notify.read_dt_u32 e.cell_index ≤ 1000))
        (Notify.matching_endpoints (Notify.read_dt_u32 (dt.phandle sfp_name)) soc) = some e := by
      rw [hc, List.find?_append]
      have : List.find? (fun e => decide (Notify.read_dt_u32 e.cell_index ≤ 1000)) pre = none := by
        rw [List.find?_eq_none]
        intro x hx
        have := hpre x hx
        simp only [decide_eq_true_eq]
        omega
      simp [this, List.find?_cons, he]
    rw [hf]
  · intro hall
    rw [heq]
    have hf : List.find? (fun e => decide (Notify.read_dt_u32 e.cell_index ≤ 1000))
        (Notify.matching_endpoints (Notify.read_dt_u32 (dt.phandle sfp_name)) soc) = none := by
      rw [List.find?_eq_none]
      intro x hx
      have := hall x hx
      simp only [decide_eq_true_eq]
      omega
    rw [hf]

/-- Witness of C9: a matching endpoint with `cell-index` 5000, then a foreign endpoint, then
a matching endpoint with `cell-index` 3: the result is `fm1-mac4`. -/
theorem cell_index_bound_skips_witness :
    Notify.find_netdev_for_sfp
      (dt_with [⟨"ethernet@e0000".toList, dt_file 0 0 0 7, dt_file 0 0 19 136⟩,
                ⟨"ethernet@e2000".toList, dt_file 0 0 0 9, dt_file 0 0 0 1⟩,
                ⟨"ethernet@e4000".toList, dt_file 0 0 0 7, dt_file 0 0 0 3⟩])
      "sfp-xfi0".toList [] MAX_NETDEV_NAME = (0, "fm1-mac4".toList) :=
  (cell_index_bound_skips
    (dt_with [⟨"ethernet@e0000".toList, dt_file 0 0 0 7, dt_file 0 0 19 136⟩,
              ⟨"ethernet@e2000".toList, dt_file 0 0 0 9, dt_file 0 0 0 1⟩,
              ⟨"ethernet@e4000".toList, dt_file 0 0 0 7, dt_file 0 0 0 3⟩])
    "sfp-xfi0".toList [] MAX_NETDEV_NAME _ (by decide) rfl).2.1
    [⟨"ethernet@e0000".toList, dt_file 0 0 0 7, dt_file 0 0 19 136⟩]
    ⟨"ethernet@e4000".toList, dt_file 0 0 0 7, dt_file 0 0 0 3⟩ [] (by decide) (by decide)
    (by decide)

/-- The decimal text of a number up to 1001 has at most four digits. -/
theorem fmt_u_length_le (n : Nat) (h : n ≤ 1001) : (fmt_u n).length ≤ 4 :=
  Nat.toDigitsCore_length 10 (by decide) (n + 1) n 4 (by omega) (by decide)

/-- Reordering a fixture permutes its matching endpoints. -/
theorem matching_endpoints_reordered (p : Nat) (soc1 soc2 : List SocNode)
    (h : Reordered soc1 soc2) :
    (Notify.matching_endpoints p soc2).Perm (Notify.matching_endpoints p soc1) := by
  obtain ⟨mid, hperm, hsame⟩ := h
  have h1 : (Notify.matching_endpoints p soc1).Perm (Notify.matching_endpoints p mid) :=
    List.Perm.flatMap_right _ hperm
  have h2 : (Notify.matching_endpoints p mid).Perm (Notify.matching_endpoints p soc2) := by
    clear h1 hperm
    induction hsame with
    | nil => exact List.Perm.refl _
    | @cons a b l1 l2 hab _ ih =>
      simp only [Notify.matching_endpoints, List.flatMap_cons] at ih ⊢
      refine List.Perm.append ?_ ih
      obtain ⟨hname, hch⟩ := hab
      rw [hname]
      split
      · cases ha : a.children with
        | none =>
          cases hb : b.children with
          | none => exact List.Perm.refl _
          | some y => rw [ha, hb] at hch; exact absurd hch id
        | some x =>
          cases hb : b.children with
          | none => rw [ha, hb] at hch; exact absurd hch id
          | some y =>
            rw [ha, hb] at hch
            exact List.Perm.filter _ hch
      · exact List.Perm.refl _
  exact (h1.trans h2).symm

/-- C8: resolution does not depend on the scan order.  For every non-zero slot phandle and
every fixture in which exactly one `fman@*`/`ethernet@*` endpoint has that phandle as its
`sfp` property, with `cell-index` `N ≤ 1000`, resolution succeeds with the name `fm1-mac`
followed by the decimal text of `N + 1`, whatever the order of the `soc` entries and of the
entries inside each of them (the caller's buffer of 32 bytes, or any of at least 12). -/
theorem resolution_order_independent (dt : DeviceTree) (sfp_name buf : List Char)
    (out_size : Nat) (soc soc2 : List SocNode) (e : EthNode) (N : Nat)
    (hp : Notify.read_dt_u32 (dt.phandle sfp_name) ≠ 0)
    (hone : Notify.matching_endpoints (Notify.read_dt_u32 (dt.phandle sfp_name)) soc = [e])
    (hN : Notify.read_dt_u32 e.cell_index = N) (hle : N ≤ 1000) (hsize : 12 ≤ out_size)
    (hre : Reordered soc soc2) :
    Notify.find_netdev_for_sfp { dt with soc := some soc2 } sfp_name buf out_size
      = (0, NETDEV_PREFIX ++ fmt_u (N + 1)) := by
  have hperm := matching_endpoints_reordered (Notify.read_dt_u32 (dt.phandle sfp_name)) _ _ hre
  rw [hone, List.perm_singleton] at hperm
  rw [find_netdev_for_sfp_eq { dt with soc := some soc2 } sfp_name buf out_size soc2 hp rfl]
  simp only [hperm, List.find?_cons, hN, hle, decide_True]
  have hlen : (NETDEV_PREFIX ++ fmt_u (N + 1)).length ≤ out_size - 1 := by
    have := fmt_u_length_le (N + 1) (by omega)
    simp only [List.length_append, NETDEV_PREFIX, List.length_cons, List.length_nil]
    omega
  simp [snprintf, List.take_of_length_le hlen]

/-- Witness of C8: two `fman@` nodes and a foreign node, the only matching endpoint at
`cell-index` 8; the `soc` entries and the endpoints of the first node are then scanned in
another order. -/
theorem resolution_order_independent_witness :
    Notify.find_netdev_for_sfp
      { phandle := fun _ => dt_file 0 0 0 7,
        soc := some
          [⟨"fman@1b00000".toList, some [⟨"ethernet@f0000".toList, dt_file 0 0 0 9, none⟩]⟩,
           ⟨"qman@1880000".toList, none⟩,
           ⟨"fman@1a00000".toList,
             some [⟨"ethernet@e2000".toList, dt_file 0 0 0 7, dt_file 0 0 0 8⟩,
                   ⟨"ethernet@e0000".toList, none, dt_file 0 0 0 1⟩]⟩] }
      "sfp-xfi0".toList [] MAX_NETDEV_NAME = (0, "fm1-mac9".toList) :=
  resolution_order_independent
    { phandle := fun _ => dt_file 0 0 0 7, soc := none } "sfp-xfi0".toList [] MAX_NETDEV_NAME
    [⟨"fman@1a00000".toList,
       some [⟨"ethernet@e0000".toList, none, dt_file 0 0 0 1⟩,
             ⟨"ethernet@e2000".toList, dt_file 0 0 0 7, dt_file 0 0 0 8⟩]⟩,
     ⟨"qman@1880000".toList, none⟩,
     ⟨"fman@1b00000".toList, some [⟨"ethernet@f0000".toList, dt_file 0 0 0 9, none⟩]⟩]
    [⟨"fman@1b00000".toList, some [⟨"ethernet@f0000".toList, dt_file 0 0 0 9, none⟩]⟩,
     ⟨"qman@1880000".toList, none⟩,
     ⟨"fman@1a00000".toList,
       some [⟨"ethernet@e2000".toList, dt_file 0 0 0 7, dt_file 0 0 0 8⟩,
             ⟨"ethernet@e0000".toList, none, dt_file 0 0 0 1⟩]⟩]
    ⟨"ethernet@e2000".toList, dt_file 0 0 0 7, dt_file 0 0 0 8⟩ 8
    (by decide) (by decide) (by decide) (by decide) (by decide)
    ⟨[⟨"fman@1b00000".toList, some [⟨"ethernet@f0000".toList, dt_file 0 0 0 9, none⟩]⟩,
      ⟨"qman@1880000".toList, none⟩,
      ⟨"fman@1a00000".toList,
        some [⟨"ethernet@e0000".toList, none, dt_file 0 0 0 1⟩,
              ⟨"ethernet@e2000".toList, dt_file 0 0 0 7, dt_file 0 0 0 8⟩]⟩],
     by decide,
     List.Forall₂.cons ⟨rfl, List.Perm.refl _⟩
       (List.Forall₂.cons ⟨rfl, trivial⟩
         (List.Forall₂.cons ⟨rfl, by decide⟩ List.Forall₂.nil))⟩

/-- The matching endpoints of a fixture, spelled out: the entries named `ethernet@*`, with
`sfp` property `p`, of a readable `soc` entry named `fman@*`. -/
theorem mem_matching_endpoints (p : Nat) (soc : List SocNode) (e : EthNode) :
    e ∈ Notify.matching_endpoints p soc ↔
      ∃ n ∈ soc, strncmp_eq n.d_name FMAN_PREFIX FMAN_PREFIX_LEN = true ∧
        ∃ es, n.children = some es ∧ e ∈ es ∧
          strncmp_eq e.d_name ETHERNET_PREFIX ETHERNET_PREFIX_LEN = true ∧
          Notify.read_dt_u32 e.sfp = p := by
  simp only [Notify.matching_endpoints, List.mem_flatMap]
  constructor
  · rintro ⟨n, hn, he⟩
    split at he
    · rename_i hf
      cases hch : n.children with
      | none => simp [hch] at he
      | some es =>
        simp only [hch, Option.getD_some, List.mem_filter, Notify.is_match,
          Bool.and_eq_true, beq_iff_eq] at he
        exact ⟨n, hn, hf, es, hch, he.1, he.2.1, he.2.2⟩
    · simp at he
  · rintro ⟨n, hn, hf, es, hch, he, hname, hsfp⟩
    refine ⟨n, hn, ?_⟩
    simp [hf, hch, List.mem_filter, Notify.is_match, he, hname, hsfp]

/-- C11: the notification variant's `find_netdev_for_sfp` returns failure if and only if
the slot's phandle reads as zero, or the soc directory cannot be opened, or no entry named
`ethernet@*` of a readable soc entry named `fman@*` has an `sfp` property equal to the
slot's phandle together with a `cell-index` of at most 1000 (so entries without these name
prefixes, and endpoints whose `sfp` property is missing and reads as 0, play no part);
on failure the caller's buffer is unchanged, and the only other return value is 0. -/
theorem resolver_failure_iff (dt : DeviceTree) (sfp_name buf : List Char) (out_size : Nat) :
    ((Notify.find_netdev_for_sfp dt sfp_name buf out_size).1 = -1 ↔
      (Notify.read_dt_u32 (dt.phandle sfp_name) = 0 ∨ dt.soc = none ∨
        ∃ soc, dt.soc = some soc ∧
          ¬ ∃ n ∈ soc, strncmp_eq n.d_name FMAN_PREFIX FMAN_PREFIX_LEN = true ∧
            ∃ es, n.children = some es ∧ ∃ e ∈ es,
              strncmp_eq e.d_name ETHERNET_PREFIX ETHERNET_PREFIX_LEN = true ∧
              Notify.read_dt_u32 e.sfp = Notify.read_dt_u32 (dt.phandle sfp_name) ∧
              Notify.read_dt_u32 e.cell_index ≤ 1000)) ∧
    ((Notify.find_netdev_for_sfp dt sfp_name buf out_size).1 = -1 →
      (Notify.find_netdev_for_sfp dt sfp_name buf out_size).2 = buf) ∧
    ((Notify.find_netdev_for_sfp dt sfp_name buf out_size).1 = 0 ∨
      (Notify.find_netdev_for_sfp dt sfp_name buf out_size).1 = -1) := by
  by_cases hp : Notify.read_dt_u32 (dt.phandle sfp_name) = 0
  · have : Notify.find_netdev_for_sfp dt sfp_name buf out_size = (-1, buf) := by
      simp [Notify.find_netdev_for_sfp, hp]
    simp [this, hp]
  · cases hsoc : dt.soc with
    | none =>
      have : Notify.find_netdev_for_sfp dt sfp_name buf out_size = (-1, buf) := by
        simp [Notify.find_netdev_for_sfp, hp, hsoc]
      simp [this]
    | some soc =>
      have heq := find_netdev_for_sfp_eq dt sfp_name buf out_size soc hp hsoc
      cases hf : List.find? (fun e => decide (Notify.read_dt_u32 e.cell_index ≤ 1000))
          (Notify.matching_endpoints (Notify.read_dt_u32 (dt.phandle sfp_name)) soc) with
      | none =>
        rw [hf] at heq
        rw [List.find?_eq_none] at hf
        refine ⟨⟨fun _ => Or.inr (Or.inr ⟨soc, rfl, ?_⟩), fun _ => by rw [heq]⟩,
          fun _ => by rw [heq], Or.inr (by rw [heq])⟩
        rintro ⟨n, hn, hfm, es, hch, e, he, hname, hsfp, hci⟩
        exact hf e ((mem_matching_endpoints _ _ _).2 ⟨n, hn, hfm, es, hch, he, hname, hsfp⟩)
          (by simpa using hci)
      | some e =>
        rw [hf] at heq
        have hmem := (mem_matching_endpoints _ _ _).1 (List.mem_of_find?_eq_some hf)
        have hci : Notify.read_dt_u32 e.cell_index ≤ 1000 := by
          simpa using List.find?_some hf
        obtain ⟨n, hn, hfm, es, hch, he, hname, hsfp⟩ := hmem
        refine ⟨⟨fun h => ?_, ?_⟩, fun h => ?_, Or.inl (by rw [heq])⟩
        · rw [heq] at h
          simp at h
        · rintro (h | h | ⟨soc2, hs2, hno⟩)
          · exact absurd h hp
          · exact absurd h (by simp)
          · cases hs2
            exact absurd ⟨n, hn, hfm, es, hch, e, he, hname, hsfp, hci⟩ hno
        · rw [heq] at h
          simp at h

/-- Witness of C11: a slot without phandle fails and leaves the buffer alone; a tree whose
only matching endpoint has `cell-index` 5000 fails; a tree with a matching endpoint within
the bound does not. -/
theorem resolver_failure_iff_witness :
    Notify.find_netdev_for_sfp { phandle := fun _ => none, soc := some [] }
        "sfp-xfi0".toList "eth0".toList MAX_NETDEV_NAME = (-1, "eth0".toList) ∧
    (Notify.find_netdev_for_sfp
        (dt_with [⟨"ethernet@e0000".toList, dt_file 0 0 0 7, dt_file 0 0 19 136⟩])
        "sfp-xfi0".toList [] MAX_NETDEV_NAME).1 = -1 :=
  ⟨Prod.ext
    ((resolver_failure_iff { phandle := fun _ => none, soc := some [] }
      "sfp-xfi0".toList "eth0".toList MAX_NETDEV_NAME).1.2 (Or.inl rfl))
    ((resolver_failure_iff { phandle := fun _ => none, soc := some [] }
      "sfp-xfi0".toList "eth0".toList MAX_NETDEV_NAME).2.1
      ((resolver_failure_iff { phandle := fun _ => none, soc := some [] }
        "sfp-xfi0".toList "eth0".toList MAX_NETDEV_NAME).1.2 (Or.inl rfl))),
   (resolver_failure_iff
      (dt_with [⟨"ethernet@e0000".toList, dt_file 0 0 0 7, dt_file 0 0 19 136⟩])
      "sfp-xfi0".toList [] MAX_NETDEV_NAME).1.2
      (Or.inr (Or.inr ⟨_, rfl, by decide⟩))⟩

/-! ### Resolver, poll-only variant -/

/-- C10, evaluated: the poll-only `find_netdev_for_sfp` has no bound on `cell-index`.  A
matching endpoint with `cell-index` 5000 is selected and gives `fm1-mac5001`, and one with
`cell-index` `0xFFFFFFFF` is selected and gives `fm1-mac0`, the 32-bit sum having wrapped. -/
theorem poll_only_resolver_accepts_any_cell_index :
    PollOnly.find_netdev_for_sfp
        (dt_with [⟨"ethernet@e0000".toList, dt_file 0 0 0 7, dt_file 0 0 19 136⟩])
        "sfp-xfi0".toList [] MAX_NETDEV_NAME = (0, "fm1-mac5001".toList) ∧
    PollOnly.find_netdev_for_sfp
        (dt_with [⟨"ethernet@e0000".toList, dt_file 0 0 0 7, dt_file 255 255 255 255⟩])
        "sfp-xfi0".toList [] MAX_NETDEV_NAME = (0, "fm1-mac0".toList) := by
  decide

/-! ### Port state machine, notification variant -/

/-- C2, evaluated: start-up with a module present and a signal, then one `update_port` on a
snapshot with the module present and `rx_los` set, every call succeeding.  `setup_port`
succeeds and leaves `last_carrier_state = false`, so `update_port` sees no change and
issues nothing: the activity trigger is still `netdev` and the last brightness written to
the link LED is still `LED_MAX`, although the latest snapshot has no signal. -/
theorem signal_lost_after_startup_is_not_acted_on :
    startup_signal.1 = 0 ∧ startup_signal.2.1.last_carrier_state = false ∧
    Notify.observe startup_signal.2.1 blob_los = (true, true, false) ∧
    issued startup_signal.2.2 startup_then_los.2 = [] ∧
    trigger_after "none".toList startup_then_los.2.trace = "netdev".toList ∧
    brightness_after .link startup_then_los.2.trace = some LED_MAX := by
  decide

/-- The port fields `update_port` leaves, which do not depend on any call outcome. -/
theorem update_port_fst (env : Env) (f : StatusFile) (port : sfp_port) (w : World) :
    (Notify.update_port env f port w).1 =
      let mp := (Notify.observe port f).1
      let hs := (Notify.observe port f).2.2
      if mp != port.last_module_present then
        { port with last_module_present := mp, last_carrier_state := hs }
      else if mp && (hs != port.last_carrier_state) then
        { port with last_carrier_state := hs }
      else port := by
  simp only [Notify.update_port, Notify.update_presence, Notify.update_signal]
  generalize (Notify.observe port f).1 = mp
  generalize (Notify.observe port f).2.2 = hs
  cases mp <;> cases hs <;> cases h1 : port.last_module_present <;>
    cases h2 : port.last_carrier_state <;> simp [h1, h2]

/-- What `set_led_brightness` adds to the trace: nothing on an absent handle, else the one
call. -/
theorem set_led_brightness_trace (env : Env) (led : Led) (fd v : Int) (w : World) :
    ∃ l, (Notify.set_led_brightness env led fd v w).2.trace = w.trace ++ l ∧
      l.length ≤ 1 ∧ ∀ a ∈ l, ∃ p o, a = Act.brightness led v p o := by
  unfold Notify.set_led_brightness
  by_cases hfd : fd < 0
  · exact ⟨[], by simp [hfd], by simp, by simp⟩
  · by_cases h0 : env.ok w.clock
    · by_cases h1 : env.ok (w.clock + 1)
      · exact ⟨[_], by simp [hfd, h0, h1, World.emit]; rfl, by simp, by simp⟩
      · exact ⟨[_], by simp [hfd, h0, h1, World.emit]; rfl, by simp, by simp⟩
    · exact ⟨[_], by simp [hfd, h0, World.emit]; rfl, by simp, by simp⟩

/-- A port whose memory already agrees with the snapshot: `update_port` runs only its
final block. -/
theorem update_port_steady (env : Env) (f : StatusFile) (q : sfp_port) (v : World)
    (h1 : q.last_module_present = (Notify.observe q f).1)
    (h2 : (Notify.observe q f).1 = true → q.last_carrier_state = (Notify.observe q f).2.2) :
    Notify.update_port env f q v = (q, Notify.update_absent env (Notify.observe q f).1 q v) := by
  simp only [Notify.update_port, Notify.update_presence, Notify.update_signal]
  revert h1 h2
  generalize (Notify.observe q f).1 = mp
  generalize (Notify.observe q f).2.2 = hs
  intro h1 h2
  cases mp <;> simp_all

/-- After `update_port` the port memory agrees with the snapshot. -/
theorem update_port_settles (env : Env) (f : StatusFile) (port : sfp_port) (w : World) :
    let q := (Notify.update_port env f port w).1
    Notify.observe q f = Notify.observe port f ∧
    q.link_led_fd = port.link_led_fd ∧ q.activity_led_fd = port.activity_led_fd ∧
    q.last_module_present = (Notify.observe port f).1 ∧
    ((Notify.observe port f).1 = true → q.last_carrier_state = (Notify.observe port f).2.2) := by
  intro q
  have hq : q = _ := update_port_fst env f port w
  have hobs : Notify.observe q f = Notify.observe port f := by
    rw [hq]
    simp only [Notify.observe]
    split_ifs <;> rfl
  refine ⟨hobs, ?_, ?_, ?_, ?_⟩
  · rw [hq]; dsimp only; split_ifs <;> rfl
  · rw [hq]; dsimp only; split_ifs <;> rfl
  · rw [hq]
    generalize (Notify.observe port f).1 = mp
    generalize (Notify.observe port f).2.2 = hs
    cases mp <;> cases hs <;> cases h1 : port.last_module_present <;>
      cases h2 : port.last_carrier_state <;> simp [h1, h2]
  · rw [hq]
    generalize (Notify.observe port f).1 = mp
    generalize (Notify.observe port f).2.2 = hs
    cases mp <;> cases hs <;> cases h1 : port.last_module_present <;>
      cases h2 : port.last_carrier_state <;> simp [h1, h2]

/-- Counterexample to C1: with the cage empty and every handle open, a second
`update_port` on the same snapshot writes OFF to both LEDs again. -/
theorem update_port_second_run_rewrites_off :
    issued (Notify.update_port (env_ok (dt_with [])) blob_absent port_open World.init).2
        (Notify.update_port_twice (env_ok (dt_with [])) blob_absent port_open World.init).2
      = [.brightness .link LED_OFF (some ['0', '\n']) .done,
         .brightness .activity LED_OFF (some ['0', '\n']) .done] := by
  decide

/-- C1 as amended: when `update_port` is run twice in succession on the same snapshot, the
second run leaves the port state unchanged and issues no trigger, device_name, tx or rx
write.  When the snapshot has a module present it issues no call at all; when the module
is absent it issues exactly the calls of the final block of `update_port`, an OFF write to
the link LED and one to the activity LED, each on its handle if open. -/
theorem update_port_second_run (env : Env) (f : StatusFile) (port : sfp_port) (w : World) :
    (Notify.update_port_twice env f port w).1 = (Notify.update_port env f port w).1 ∧
    (Notify.update_port_twice env f port w).2 =
      (if (Notify.observe port f).1 then (Notify.update_port env f port w).2
       else (Notify.set_led_brightness env .activity port.activity_led_fd LED_OFF
              (Notify.set_led_brightness env .link port.link_led_fd LED_OFF
                (Notify.update_port env f port w).2).2).2) ∧
    (issued (Notify.update_port env f port w).2
      (Notify.update_port_twice env f port w).2).all Act.is_off_call = true ∧
    (issued (Notify.update_port env f port w).2
      (Notify.update_port_twice env f port w).2).length ≤ 2 := by
  show
    let r1 := Notify.update_port env f port w
    let r2 := Notify.update_port env f r1.1 r1.2
    r2.1 = r1.1 ∧
    r2.2 = (if (Notify.observe port f).1 then r1.2
            else (Notify.set_led_brightness env .activity port.activity_led_fd LED_OFF
                  (Notify.set_led_brightness env .link port.link_led_fd LED_OFF r1.2).2).2) ∧
    (issued r1.2 r2.2).all Act.is_off_call = true ∧
    (issued r1.2 r2.2).length ≤ 2
  intro r1 r2
  obtain ⟨hobs, hl, ha, h1, h2⟩ := update_port_settles env f port w
  have hr2 : r2 = (r1.1, Notify.update_absent env (Notify.observe port f).1 r1.1 r1.2) := by
    have := update_port_steady env f r1.1 r1.2 (by rw [hobs]; exact h1) (by rw [hobs]; exact h2)
    rw [hobs] at this
    exact this
  have hw : r2.2 = (if (Notify.observe port f).1 then r1.2
      else (Notify.set_led_brightness env .activity port.activity_led_fd LED_OFF
            (Notify.set_led_brightness env .link port.link_led_fd LED_OFF r1.2).2).2) := by
    rw [hr2]
    simp only [Notify.update_absent]
    change (if _ then _ else _) = _
    rw [show r1.1.link_led_fd = port.link_led_fd from hl,
      show r1.1.activity_led_fd = port.activity_led_fd from ha]
    cases (Notify.observe port f).1 <;> rfl
  refine ⟨by rw [hr2], hw, ?_⟩
  rw [hw]
  cases (Notify.observe port f).1
  · obtain ⟨l1, e1, n1, p1⟩ := set_led_brightness_trace env .link port.link_led_fd LED_OFF r1.2
    obtain ⟨l2, e2, n2, p2⟩ := set_led_brightness_trace env .activity port.activity_led_fd
      LED_OFF (Notify.set_led_brightness env .link port.link_led_fd LED_OFF r1.2).2
    have hi : issued r1.2 (Notify.set_led_brightness env .activity port.activity_led_fd LED_OFF
        (Notify.set_led_brightness env .link port.link_led_fd LED_OFF r1.2).2).2 = l1 ++ l2 := by
      simp [issued, e2, e1]
    simp only [Bool.false_eq_true, if_false, hi, List.all_eq_true, List.mem_append,
      List.length_append]
    refine ⟨?_, by omega⟩
    rintro a (ha | ha)
    · obtain ⟨p, o, rfl⟩ := p1 a ha
      rfl
    · obtain ⟨p, o, rfl⟩ := p2 a ha
      rfl
  · simp [issued]

/-! ### Status readers, notification variant -/

/-- A text has at least one line: head and tail of its lines put together give them back. -/
theorem text_lines_head_tail (s : List Char) :
    (text_lines s).headD [] :: (text_lines s).tail = text_lines s := by
  cases s with
  | nil => rfl
  | cons c cs =>
    simp only [text_lines]
    split <;> rfl

/-- Joining the lines of a text with newlines gives the text back. -/
theorem text_lines_join (s : List Char) : List.intercalate ['\n'] (text_lines s) = s := by
  induction s with
  | nil => rfl
  | cons c cs ih =>
    rw [← text_lines_head_tail cs] at ih
    by_cases hc : c = '\n'
    · subst hc
      simp only [text_lines, if_true]
      rw [← text_lines_head_tail cs]
      simpa [List.intercalate, List.intersperse] using ih
    · simp only [text_lines, hc, if_false]
      cases ht : (text_lines cs).tail with
      | nil =>
        rw [ht] at ih
        simpa [List.intercalate, List.intersperse] using ih
      | cons l ls =>
        rw [ht] at ih
        simpa [List.intercalate, List.intersperse] using ih

/-- The first line is the text up to the first newline, the other lines are those of the
text after it. -/
theorem text_lines_unfold (s : List Char) :
    text_lines s = s.takeWhile (fun c => c != '\n') ::
      (match s.dropWhile (fun c => c != '\n') with
       | [] => []
       | _ :: next => text_lines next) := by
  induction s with
  | nil => rfl
  | cons c cs ih =>
    by_cases hc : c = '\n'
    · subst hc
      simp [text_lines]
    · have hb : (c != '\n') = true := by simpa using hc
      simp only [text_lines, hc, if_false, List.takeWhile_cons, List.dropWhile_cons, hb, if_true]
      rw [ih]
      simp

/-- For a key of the stated length, `strncmp(line, key, len) == 0` says that the line
starts with the key. -/
theorem strncmp_eq_iff_starts (line key : List Char) :
    strncmp_eq line key key.length = key.isPrefixOf line := by
  rw [Bool.eq_iff_iff, List.isPrefixOf_iff_prefix, List.prefix_iff_eq_take]
  simp [strncmp_eq, eq_comm]

/-- The line scan finds the first line that starts with the key and tests the first
character after the key and the spaces; the fuel of one unit per byte is enough. -/
theorem scan_lines_eq (key : List Char) (dflt : Bool) (hkey : key ≠ []) :
    ∀ (fuel : Nat) (pos : List Char), pos.length < fuel →
      scan_lines key key.length dflt fuel pos =
        match first_line_with key pos with
        | none => dflt
        | some l => decide (value_char key l = some '1') := by
  intro fuel
  induction fuel with
  | zero => intro pos h; omega
  | succ fuel ih =>
    intro pos hlen
    unfold scan_lines
    by_cases hpos : pos = []
    · subst hpos
      have : key.isPrefixOf ([] : List Char) = false := by
        cases key with
        | nil => exact absurd rfl hkey
        | cons a as => rfl
      simp [first_line_with, text_lines, this]
    · simp only [hpos, if_false, strncmp_eq_iff_starts]
      unfold first_line_with
      rw [text_lines_unfold pos, List.find?_cons]
      cases hp : key.isPrefixOf (List.takeWhile (fun c => c != '\n') pos) with
      | true => simp [value_char]
      | false =>
        simp only [Bool.false_eq_true, if_false]
        have hsuf := (List.dropWhile_suffix (l := pos) (fun c => c != '\n')).length_le
        cases hd : List.dropWhile (fun c => c != '\n') pos with
        | nil => simp
        | cons x next =>
          rw [hd] at hsuf
          simp only [List.length_cons] at hsuf
          simp only []
          rw [ih next (by omega)]
          rfl

/-- Appending to a text extends its last line and leaves the lines before it alone. -/
theorem text_lines_append (p t : List Char) :
    ∃ init last, text_lines p = init ++ [last] ∧
      text_lines (p ++ t) = init ++ (last ++ (text_lines t).headD []) :: (text_lines t).tail := by
  induction p with
  | nil => exact ⟨[], [], rfl, by simpa using (text_lines_head_tail t).symm⟩
  | cons a p ih =>
    obtain ⟨init, last, h1, h2⟩ := ih
    by_cases ha : a = '\n'
    · exact ⟨[] :: init, last, by simp [text_lines, ha, h1], by simp [text_lines, ha, h2]⟩
    · cases init with
      | nil => exact ⟨[], a :: last, by simp [text_lines, ha, h1], by simp [text_lines, ha, h2]⟩
      | cons i is =>
        exact ⟨(a :: i) :: is, last, by simp [text_lines, ha, h1], by simp [text_lines, ha, h2]⟩

/-- Every line of a prefix of a text is the start of a line of the text. -/
theorem line_of_head_part (p c l' : List Char) (hp : p <+: c) (hl : l' ∈ text_lines p) :
    ∃ l ∈ text_lines c, l' <+: l := by
  obtain ⟨t, rfl⟩ := hp
  obtain ⟨init, last, h1, h2⟩ := text_lines_append p t
  rw [h1] at hl
  rw [h2]
  rcases List.mem_append.1 hl with h | h
  · exact ⟨l', by simp [h], List.prefix_refl _⟩
  · have : l' = last := by simpa using h
    subst this
    exact ⟨l' ++ (text_lines t).headD [], by simp, List.prefix_append _ _⟩

/-- A text with no line starting with the key has no prefix with such a line. -/
theorem first_line_with_none_mono (key p c : List Char) (hp : p <+: c)
    (hc : first_line_with key c = none) : first_line_with key p = none := by
  unfold first_line_with at *
  rw [List.find?_eq_none] at *
  intro l' hl' hk
  obtain ⟨l, hl, hpre⟩ := line_of_head_part p c l' hp hl'
  exact hc l hl (List.isPrefixOf_iff_prefix.2 ((List.isPrefixOf_iff_prefix.1 hk).trans hpre))

/-- The C string in the buffer after the read is a prefix of the file content. -/
theorem c_str_read_head (n : Nat) (content : List Char) :
    c_str (read_bytes n content) <+: content :=
  (List.takeWhile_prefix _).trans (List.take_prefix _ _)

/-- The buffer of the status readers is short enough for the fuel of the line scan. -/
theorem c_str_read_length (content : List Char) :
    (c_str (read_bytes (DEBUGFS_STATE_BUF_SIZE - 1) content)).length < DEBUGFS_STATE_BUF_SIZE := by
  have h1 := (List.takeWhile_prefix (l := read_bytes (DEBUGFS_STATE_BUF_SIZE - 1) content)
    (fun c => c != NUL)).length_le
  have h2 : (read_bytes (DEBUGFS_STATE_BUF_SIZE - 1) content).length ≤ 511 := by
    simp [read_bytes, DEBUGFS_STATE_BUF_SIZE]
  simp only [c_str, DEBUGFS_STATE_BUF_SIZE] at *
  omega

/-- The value `read_module_present` returns on a state file that is opened and read. -/
theorem read_module_present_eq (fd : Int) (hfd : 0 ≤ fd) (content : List Char) :
    Notify.read_module_present fd ⟨true, some content⟩ =
      match first_line_with MODDEF0_PREFIX (c_str (read_bytes 511 content)) with
      | none => false
      | some l => decide (value_char MODDEF0_PREFIX l = some '1') := by
  have hfd' : ¬ fd < 0 := by omega
  simp only [Notify.read_module_present, hfd', if_false, Bool.not_true, Bool.false_eq_true]
  by_cases h0 : (read_bytes (DEBUGFS_STATE_BUF_SIZE - 1) content).length = 0
  · have : read_bytes 511 content = [] := List.length_eq_zero.1 h0
    simp [h0, this, c_str, first_line_with, text_lines, MODDEF0_PREFIX]
  · simp only [h0, if_false]
    exact scan_lines_eq MODDEF0_PREFIX false (by decide) _ _
      (c_str_read_length content)

/-- The value `read_rx_los` returns on a state file that is opened and read. -/
theorem read_rx_los_eq (fd : Int) (hfd : 0 ≤ fd) (content : List Char) :
    Notify.read_rx_los fd ⟨true, some content⟩ =
      match first_line_with RX_LOS_PREFIX (c_str (read_bytes 511 content)) with
      | none => true
      | some l => decide (value_char RX_LOS_PREFIX l = some '1') := by
  have hfd' : ¬ fd < 0 := by omega
  simp only [Notify.read_rx_los, hfd', if_false, Bool.not_true, Bool.false_eq_true]
  by_cases h0 : (read_bytes (DEBUGFS_STATE_BUF_SIZE - 1) content).length = 0
  · have : read_bytes 511 content = [] := List.length_eq_zero.1 h0
    simp [h0, this, c_str, first_line_with, text_lines, RX_LOS_PREFIX]
  · simp only [h0, if_false]
    exact scan_lines_eq RX_LOS_PREFIX true (by decide) _ _
      (c_str_read_length content)

/-- An unreadable state file, or one without a line starting with the key, makes a status
reader return its default. -/
theorem reader_default (key : List Char) (hkey : key ≠ []) (fd : Int) (f : StatusFile)
    (h : Unreadable fd f ∨ NoKeyLine key f) :
    fd < 0 ∨ f.seek_ok = false ∨ f.content = none ∨
      ∃ c, f.content = some c ∧ first_line_with key (c_str (read_bytes 511 c)) = none := by
  rcases h with (h | h | h | h) | h
  · exact Or.inl h
  · exact Or.inr (Or.inl h)
  · exact Or.inr (Or.inr (Or.inl h))
  · refine Or.inr (Or.inr (Or.inr ⟨[], h, ?_⟩))
    cases key with
    | nil => exact absurd rfl hkey
    | cons a as => simp [c_str, read_bytes, first_line_with, text_lines]
  · cases hc : f.content with
    | none => exact Or.inr (Or.inr (Or.inl rfl))
    | some c =>
      exact Or.inr (Or.inr (Or.inr ⟨c, rfl,
        first_line_with_none_mono key _ c (c_str_read_head 511 c) (h c hc)⟩))

/-- The first half of C4 for `read_module_present`, shared with the statement about
`update_port`. -/
theorem read_module_present_default (fd : Int) (f : StatusFile)
    (h : Unreadable fd f ∨ NoKeyLine MODDEF0_PREFIX f) :
    Notify.read_module_present fd f = false := by
  obtain ⟨seek_ok, content⟩ := f
  rcases reader_default _ (by decide) fd _ h with h | h | h | ⟨c, hc, hn⟩
  · simp [Notify.read_module_present, h]
  · simp only at h
    simp [Notify.read_module_present, h]
  · simp only at h
    simp [Notify.read_module_present, h]
  · simp only at hc
    subst hc
    by_cases hfd : fd < 0
    · simp [Notify.read_module_present, hfd]
    · cases seek_ok with
      | false => simp [Notify.read_module_present]
      | true => rw [read_module_present_eq fd (by omega) c, hn]

/-- The first half of C4 for `read_rx_los`, shared with the statement about `update_port`. -/
theorem read_rx_los_default (fd : Int) (f : StatusFile)
    (h : Unreadable fd f ∨ NoKeyLine RX_LOS_PREFIX f) :
    Notify.read_rx_los fd f = true := by
  obtain ⟨seek_ok, content⟩ := f
  rcases reader_default _ (by decide) fd _ h with h | h | h | ⟨c, hc, hn⟩
  · simp [Notify.read_rx_los, h]
  · simp only at h
    simp [Notify.read_rx_los, h]
  · simp only at h
    simp [Notify.read_rx_los, h]
  · simp only at hc
    subst hc
    by_cases hfd : fd < 0
    · simp [Notify.read_rx_los, hfd]
    · cases seek_ok with
      | false => simp [Notify.read_rx_los]
      | true => rw [read_rx_los_eq fd (by omega) c, hn]

/-- C4: whenever the status handle is absent, the rewind fails, the read fails or returns
zero bytes, or the content has no line starting with the key, `read_module_present`
returns false and `read_rx_los` returns true; hence `update_port` computes
`module_present = false` and `has_signal = false` for an unreadable status source (and
`has_signal = false` also when either key is missing from the content). -/
theorem status_readers_fail_safe (port : sfp_port) (fd : Int) (f : StatusFile) :
    ((Unreadable fd f ∨ NoKeyLine MODDEF0_PREFIX f) → Notify.read_module_present fd f = false) ∧
    ((Unreadable fd f ∨ NoKeyLine RX_LOS_PREFIX f) → Notify.read_rx_los fd f = true) ∧
    ((Unreadable port.mod_present_fd f ∨ NoKeyLine MODDEF0_PREFIX f) →
      (Notify.observe port f).1 = false ∧ (Notify.observe port f).2.2 = false) ∧
    ((Unreadable port.mod_present_fd f ∨ NoKeyLine RX_LOS_PREFIX f) →
      (Notify.observe port f).2.1 = true ∧ (Notify.observe port f).2.2 = false) := by
  refine ⟨read_module_present_default fd f, read_rx_los_default fd f, ?_, ?_⟩
  · intro h
    simp [Notify.observe, read_module_present_default _ f h]
  · intro h
    simp [Notify.observe, read_rx_los_default _ f h]

/-- Witness of C4: the port of the static initialiser (status handle absent) on any blob,
and an open handle on a blob without a `moddef0:` line. -/
theorem status_readers_fail_safe_witness :
    (Notify.read_module_present (-1) blob_signal = false ∧
      Notify.read_rx_los (-1) blob_signal = true) ∧
    ((Notify.observe Notify.port0 blob_signal).1 = false ∧
      (Notify.observe Notify.port0 blob_signal).2.2 = false) ∧
    Notify.read_module_present 5 ⟨true, some "rx_los: 0\n".toList⟩ = false :=
  ⟨⟨(status_readers_fail_safe Notify.port0 (-1) blob_signal).1 (Or.inl (Or.inl (by decide))),
    (status_readers_fail_safe Notify.port0 (-1) blob_signal).2.1 (Or.inl (Or.inl (by decide)))⟩,
   (status_readers_fail_safe Notify.port0 (-1) blob_signal).2.2.1
     (Or.inl (Or.inl (by decide))),
   (status_readers_fail_safe Notify.port0 5 ⟨true, some "rx_los: 0\n".toList⟩).1
     (Or.inr (fun c hc => by cases hc; decide))⟩

/-- C5: for every NUL-free blob content of at most 511 bytes, `read_module_present` returns
true if and only if the content has a newline-separated line that starts with `moddef0:`
and, in the first such line, the first character after the key and any run of spaces is
`1`; the lines before it, which do not start with the key, play no part. -/
theorem read_module_present_parse (fd : Int) (content : List Char) (hfd : 0 ≤ fd)
    (hlen : content.length ≤ 511) (hnul : NUL ∉ content) :
    Notify.read_module_present fd ⟨true, some content⟩ = true ↔
      ∃ l, first_line_with MODDEF0_PREFIX content = some l ∧
        value_char MODDEF0_PREFIX l = some '1' := by
  have hbuf : c_str (read_bytes 511 content) = content := by
    rw [read_bytes, List.take_of_length_le hlen, c_str, List.takeWhile_eq_self_iff]
    intro x hx
    have : x ≠ NUL := fun h => hnul (h ▸ hx)
    simpa using this
  rw [read_module_present_eq fd hfd content, hbuf]
  cases first_line_with MODDEF0_PREFIX content with
  | none => simp
  | some l => simp

/-- Witness of C5: an empty line and a foreign line before `moddef0:  1`. -/
theorem read_module_present_parse_witness :
    Notify.read_module_present 5 ⟨true, some "\nfoo: 1\nmoddef0:  1\nmoddef0: 0\n".toList⟩
      = true :=
  (read_module_present_parse 5 "\nfoo: 1\nmoddef0:  1\nmoddef0: 0\n".toList (by decide)
    (by decide) (by decide)).2 ⟨"moddef0:  1".toList, by decide, by decide⟩

/-- C6, evaluated: on a blob whose `rx_los:` line has the non-digit value `x` (or an empty
value) `read_rx_los` returns false, and with `moddef0: 1` `update_port` computes
`has_signal = true` although no `rx_los:` line has a value beginning with `0`. -/
theorem garbled_rx_los_reads_as_signal :
    Notify.read_rx_los 5 blob_garbled = false ∧
    Notify.read_rx_los 5 ⟨true, some "moddef0: 1\nrx_los:\n".toList⟩ = false ∧
    Notify.observe { Notify.port0 with mod_present_fd := 5 } blob_garbled
      = (true, false, true) := by
  decide

/-! ### Actuation calls, notification variant -/

/-- The actions issued up to a point of a run that extends an earlier one. -/
theorem issued_of_trace (before after : World) (l : List Act)
    (h : after.trace = before.trace ++ l) : issued before after = l := by
  simp [issued, h]

/-- What one `set_led_brightness` adds to the trace, whatever the calls do: the one call on
an open handle, nothing on an absent one. -/
theorem set_led_brightness_issue (env : Env) (led : Led) (fd v : Int) (w : World) :
    ∃ o, (Notify.set_led_brightness env led fd v w).2.trace =
      w.trace ++ (if 0 ≤ fd then [Act.brightness led v (brightness_payload v) o] else []) := by
  unfold Notify.set_led_brightness
  by_cases hfd : fd < 0
  · exact ⟨.done, by simp [hfd, not_le.2 hfd]⟩
  · have hfd' : 0 ≤ fd := not_lt.1 hfd
    by_cases h0 : env.ok w.clock
    · by_cases h1 : env.ok (w.clock + 1)
      · exact ⟨.done, by simp [hfd, hfd', h0, h1, World.emit]⟩
      · exact ⟨.write_failed, by simp [hfd, hfd', h0, h1, World.emit]⟩
    · exact ⟨.not_written, by simp [hfd, hfd', h0, World.emit]⟩

/-- On an absent handle `set_led_brightness` does nothing. -/
theorem set_led_brightness_absent (env : Env) (led : Led) (fd v : Int) (w : World)
    (hfd : fd < 0) : Notify.set_led_brightness env led fd v w = (-1, w) := by
  simp [Notify.set_led_brightness, hfd]

/-- On an open handle, with the rewind and the write succeeding, `set_led_brightness`
returns 0 after the one completed call. -/
theorem set_led_brightness_ok (env : Env) (led : Led) (fd v : Int) (w : World)
    (hok : ∀ n, env.ok n = true) (hfd : 0 ≤ fd) :
    Notify.set_led_brightness env led fd v w =
      (0, w.emit 2 (.brightness led v (brightness_payload v) .done)) := by
  simp [Notify.set_led_brightness, not_lt.2 hfd, hok]

/-- What one `write_sysfs_string` adds to the trace, whatever the calls do: the one call,
whose outcome decides the return value. -/
theorem write_sysfs_string_issue (env : Env) (attr : Attr) (value : List Char) (w : World) :
    ∃ o, (Notify.write_sysfs_string env attr value w).2.trace = w.trace ++ [.sysfs attr value o] ∧
      (Notify.write_sysfs_string env attr value w).1 = o.ret ∧
      ((Notify.write_sysfs_string env attr value w).1 < 0 ↔ o ≠ .done) := by
  unfold Notify.write_sysfs_string
  by_cases hd : env.desc w.clock < 0
  · exact ⟨.not_written, by simp [hd, World.emit, Outcome.ret]⟩
  · by_cases h1 : env.ok (w.clock + 1)
    · exact ⟨.done, by simp [hd, h1, World.emit, Outcome.ret]⟩
    · exact ⟨.write_failed, by simp [hd, h1, World.emit, Outcome.ret]⟩

/-- With the open and the write succeeding, `write_sysfs_string` returns 0 after the one
completed call. -/
theorem write_sysfs_string_ok (env : Env) (attr : Attr) (value : List Char) (w : World)
    (hok : ∀ n, env.ok n = true) (hdesc : ∀ n, 0 ≤ env.desc n) :
    Notify.write_sysfs_string env attr value w = (0, w.emit 3 (.sysfs attr value .done)) := by
  simp [Notify.write_sysfs_string, not_lt.2 (hdesc _), hok]

/-- With every call succeeding, `setup_netdev_trigger` makes its four writes. -/
theorem setup_netdev_trigger_ok (env : Env) (port : sfp_port) (w : World)
    (hok : ∀ n, env.ok n = true) (hdesc : ∀ n, 0 ≤ env.desc n) :
    (Notify.setup_netdev_trigger env port w).trace =
      w.trace ++ [.sysfs .trigger ['n', 'e', 't', 'd', 'e', 'v'] .done,
                  .sysfs .device_name port.netdev .done,
                  .sysfs .tx ['1'] .done, .sysfs .rx ['1'] .done] := by
  simp [Notify.setup_netdev_trigger, write_sysfs_string_ok, hok, hdesc, World.emit]

/-! ### Start-up, notification variant -/

/-- The clean-up exit of `setup_port` returns -1. -/
theorem setup_port_fail_ret (env : Env) (port : sfp_port) (w : World) :
    (Notify.setup_port_fail env port w).1 = -1 := rfl

/-- The two exits of `setup_port`: -1, or 0 with the carrier file and both LEDs opened,
nothing issued before the last part, and the result of that part (lines 436 to 460). -/
theorem setup_port_cases (env : Env) (f : StatusFile) (port : sfp_port) (w : World) :
    (Notify.setup_port env f port w).1 = -1 ∨
    ∃ q v, v.trace = w.trace ∧ 0 ≤ q.carrier_fd ∧ 0 ≤ q.link_led_fd ∧
      0 ≤ q.activity_led_fd ∧
      Notify.setup_port env f port w = (0, Notify.setup_port_state env f q v) := by
  unfold Notify.setup_port
  simp only []
  repeat' split
  all_goals
    first
    | exact Or.inl rfl
    | skip
  rename_i watch q v heq h1 h2 h3 hfd
  have hv : v.trace = w.trace := by
    split at heq
    · split at heq
      · cases heq
      · cases heq; rfl
    · cases heq; rfl
  simp only [not_or, not_lt] at hfd
  refine Or.inr ⟨_, _, ?_, ?_, ?_, ?_, rfl⟩
  · exact hv
  · exact hfd.1
  · exact hfd.2.1
  · exact hfd.2.2

/-- The port fields lines 436 to 460 of `setup_port` leave. -/
theorem setup_port_state_fst (env : Env) (f : StatusFile) (q : sfp_port) (v : World) :
    (Notify.setup_port_state env f q v).1 =
      { q with last_module_present := Notify.read_module_present q.mod_present_fd f,
               last_carrier_state := false } := by
  unfold Notify.setup_port_state
  simp only []
  split_ifs <;> rfl

/-- C12: start-up with the module absent, notification variant.  For every port whose
`setup_port` succeeds while the state file read through the handle it opened reports the
module absent, the calls `setup_port` issues are exactly one OFF write to the link LED and
one OFF write to the activity LED, in that order (no trigger, device_name, tx or rx
write), and `last_module_present` is false. -/
theorem startup_module_absent (env : Env) (f : StatusFile) (port : sfp_port) (w : World)
    (hret : (Notify.setup_port env f port w).1 = 0)
    (habs : Notify.read_module_present (Notify.setup_port env f port w).2.1.mod_present_fd f
      = false) :
    (∃ o1 o2, issued w (Notify.setup_port env f port w).2.2 =
      [.brightness .link LED_OFF (brightness_payload LED_OFF) o1,
       .brightness .activity LED_OFF (brightness_payload LED_OFF) o2]) ∧
    (Notify.setup_port env f port w).2.1.last_module_present = false := by
  rcases setup_port_cases env f port w with hfail | ⟨q, v, hv, _, hl, ha, heq⟩
  · rw [hfail] at hret
    exact absurd hret (by decide)
  · rw [heq] at habs ⊢
    have hfst := setup_port_state_fst env f q v
    simp only [hfst] at habs ⊢
    refine ⟨?_, habs⟩
    obtain ⟨o1, h1⟩ := set_led_brightness_issue env .link q.link_led_fd LED_OFF v
    obtain ⟨o2, h2⟩ := set_led_brightness_issue env .activity q.activity_led_fd LED_OFF
      (Notify.set_led_brightness env .link q.link_led_fd LED_OFF v).2
    refine ⟨o1, o2, issued_of_trace _ _ _ ?_⟩
    simp only [Notify.setup_port_state, habs, Bool.false_eq_true, if_false]
    rw [h2, h1, hv]
    simp [hl, ha]

/-- Witness of C12: port 0 on an empty cage, every call succeeding. -/
theorem startup_module_absent_witness :
    (∃ o1 o2, issued World.init
        (Notify.setup_port env_resolved blob_absent Notify.port0 World.init).2.2 =
      [.brightness .link LED_OFF (brightness_payload LED_OFF) o1,
       .brightness .activity LED_OFF (brightness_payload LED_OFF) o2]) ∧
    (Notify.setup_port env_resolved blob_absent Notify.port0
      World.init).2.1.last_module_present = false :=
  startup_module_absent env_resolved blob_absent Notify.port0 World.init (by decide)
    (by decide)

/-! ### Transitions of the port state machine, notification variant -/

/-- C14: module inserted with signal.  For every port state with
`last_module_present = false` and a snapshot with the module present and `rx_los` clear,
with all writes succeeding (every `open`, `lseek` and `write` succeeds and the link LED
handle is open), `update_port` issues exactly: trigger <- `netdev`, device_name <- the
interface name of the port, tx <- `1`, rx <- `1`, link LED brightness <- `LED_MAX`; it
writes nothing to the activity LED brightness and ends with `last_module_present = true`
and `last_carrier_state = true`. -/
theorem module_inserted_with_signal (env : Env) (f : StatusFile) (port : sfp_port)
    (w : World) (hok : ∀ n, env.ok n = true) (hdesc : ∀ n, 0 ≤ env.desc n)
    (hlink : 0 ≤ port.link_led_fd) (hlast : port.last_module_present = false)
    (hmp : Notify.read_module_present port.mod_present_fd f = true)
    (hlos : Notify.read_rx_los port.mod_present_fd f = false) :
    issued w (Notify.update_port env f port w).2 =
      [.sysfs .trigger ['n', 'e', 't', 'd', 'e', 'v'] .done,
       .sysfs .device_name port.netdev .done,
       .sysfs .tx ['1'] .done,
       .sysfs .rx ['1'] .done,
       .brightness .link LED_MAX (brightness_payload LED_MAX) .done] ∧
    (Notify.update_port env f port w).1.last_module_present = true ∧
    (Notify.update_port env f port w).1.last_carrier_state = true := by
  refine ⟨issued_of_trace _ _ _ ?_, ?_, ?_⟩
  · simp [Notify.update_port, Notify.observe, hmp, hlos, Notify.update_presence,
      Notify.update_signal, Notify.update_absent, hlast, set_led_brightness_ok,
      setup_netdev_trigger_ok, hok, hdesc, hlink, World.emit]
  · rw [update_port_fst]
    simp [Notify.observe, hmp, hlos, hlast]
  · rw [update_port_fst]
    simp [Notify.observe, hmp, hlos, hlast]

/-- Witness of C14: an open port that remembers an empty cage, on a snapshot with a module
and a signal. -/
theorem module_inserted_with_signal_witness :
    issued World.init (Notify.update_port env_resolved blob_signal port_open World.init).2 =
      [.sysfs .trigger ['n', 'e', 't', 'd', 'e', 'v'] .done,
       .sysfs .device_name port_open.netdev .done,
       .sysfs .tx ['1'] .done,
       .sysfs .rx ['1'] .done,
       .brightness .link LED_MAX (brightness_payload LED_MAX) .done] ∧
    (Notify.update_port env_resolved blob_signal port_open World.init).1.last_module_present
      = true ∧
    (Notify.update_port env_resolved blob_signal port_open World.init).1.last_carrier_state
      = true :=
  module_inserted_with_signal env_resolved blob_signal port_open World.init
    (fun _ => rfl) (fun n => by simp [env_resolved, env_ok]; omega) (by decide) (by decide)
    (by decide) (by decide)

/-- C15: signal lost.  For every port state with `last_module_present = true` and
`last_carrier_state = true`, both LED handles open, and a snapshot with the module present
and `rx_los` set, `update_port` issues exactly trigger <- `none`, link LED brightness <- 0,
activity LED brightness <- `LED_MAX`, in that order, with no trigger bind afterwards, and
ends with `last_carrier_state = false`. -/
theorem signal_lost_transition (env : Env) (f : StatusFile) (port : sfp_port) (w : World)
    (hlink : 0 ≤ port.link_led_fd) (hact : 0 ≤ port.activity_led_fd)
    (hlast : port.last_module_present = true) (hcar : port.last_carrier_state = true)
    (hmp : Notify.read_module_present port.mod_present_fd f = true)
    (hlos : Notify.read_rx_los port.mod_present_fd f = true) :
    (∃ o1 o2 o3, issued w (Notify.update_port env f port w).2 =
      [.sysfs .trigger ['n', 'o', 'n', 'e'] o1,
       .brightness .link LED_OFF (brightness_payload LED_OFF) o2,
       .brightness .activity LED_MAX (brightness_payload LED_MAX) o3]) ∧
    (Notify.update_port env f port w).1.last_module_present = true ∧
    (Notify.update_port env f port w).1.last_carrier_state = false := by
  have hw : (Notify.update_port env f port w).2 =
      (Notify.set_led_brightness env .activity port.activity_led_fd LED_MAX
        (Notify.set_led_brightness env .link port.link_led_fd LED_OFF
          (Notify.disable_netdev_trigger env w)).2).2 := by
    simp [Notify.update_port, Notify.observe, hmp, hlos, Notify.update_presence,
      Notify.update_signal, Notify.update_absent, hlast, hcar]
  refine ⟨?_, ?_, ?_⟩
  · obtain ⟨o1, h1, -, -⟩ := write_sysfs_string_issue env .trigger ['n', 'o', 'n', 'e'] w
    obtain ⟨o2, h2⟩ := set_led_brightness_issue env .link port.link_led_fd LED_OFF
      (Notify.disable_netdev_trigger env w)
    obtain ⟨o3, h3⟩ := set_led_brightness_issue env .activity port.activity_led_fd LED_MAX
      (Notify.set_led_brightness env .link port.link_led_fd LED_OFF
        (Notify.disable_netdev_trigger env w)).2
    refine ⟨o1, o2, o3, issued_of_trace _ _ _ ?_⟩
    rw [hw, h3, h2]
    simp [Notify.disable_netdev_trigger, h1, hlink, hact]
  · rw [update_port_fst]
    simp [Notify.observe, hmp, hlos, hlast, hcar]
  · rw [update_port_fst]
    simp [Notify.observe, hmp, hlos, hlast, hcar]

/-- Witness of C15: a port that remembers a module with signal, on a snapshot with `rx_los`
set. -/
theorem signal_lost_transition_witness :
    (∃ o1 o2 o3, issued World.init (Notify.update_port env_resolved blob_los
        { port_open with last_module_present := true, last_carrier_state := true }
        World.init).2 =
      [.sysfs .trigger ['n', 'o', 'n', 'e'] o1,
       .brightness .link LED_OFF (brightness_payload LED_OFF) o2,
       .brightness .activity LED_MAX (brightness_payload LED_MAX) o3]) ∧
    (Notify.update_port env_resolved blob_los
      { port_open with last_module_present := true, last_carrier_state := true }
      World.init).1.last_module_present = true ∧
    (Notify.update_port env_resolved blob_los
      { port_open with last_module_present := true, last_carrier_state := true }
      World.init).1.last_carrier_state = false :=
  signal_lost_transition env_resolved blob_los
    { port_open with last_module_present := true, last_carrier_state := true } World.init
    (by decide) (by decide) rfl rfl (by decide) (by decide)

/-- C16: module removed.  For every port state with `last_module_present = true`, whatever
`last_carrier_state` is, both LED handles open, and a snapshot with the module absent,
`update_port` issues trigger <- `none` and then OFF writes only, to the link LED and the
activity LED, twice each (no `LED_MAX` write, no trigger bind), so that 0 is the last
brightness written to both LEDs when the writes succeed; it ends with
`last_module_present = false` and `last_carrier_state = false`. -/
theorem module_removed (env : Env) (f : StatusFile) (port : sfp_port) (w : World)
    (hlink : 0 ≤ port.link_led_fd) (hact : 0 ≤ port.activity_led_fd)
    (hlast : port.last_module_present = true)
    (hmp : Notify.read_module_present port.mod_present_fd f = false) :
    (∃ o1 o2 o3 o4 o5, issued w (Notify.update_port env f port w).2 =
      [.sysfs .trigger ['n', 'o', 'n', 'e'] o1,
       .brightness .link LED_OFF (brightness_payload LED_OFF) o2,
       .brightness .activity LED_OFF (brightness_payload LED_OFF) o3,
       .brightness .link LED_OFF (brightness_payload LED_OFF) o4,
       .brightness .activity LED_OFF (brightness_payload LED_OFF) o5]) ∧
    ((∀ n, env.ok n = true) →
      brightness_after .link (Notify.update_port env f port w).2.trace = some 0 ∧
      brightness_after .activity (Notify.update_port env f port w).2.trace = some 0) ∧
    (Notify.update_port env f port w).1.last_module_present = false ∧
    (Notify.update_port env f port w).1.last_carrier_state = false := by
  have hw : (Notify.update_port env f port w).2 =
      (Notify.set_led_brightness env .activity port.activity_led_fd LED_OFF
        (Notify.set_led_brightness env .link port.link_led_fd LED_OFF
          (Notify.set_led_brightness env .activity port.activity_led_fd LED_OFF
            (Notify.set_led_brightness env .link port.link_led_fd LED_OFF
              (Notify.disable_netdev_trigger env w)).2).2).2).2 := by
    simp [Notify.update_port, Notify.observe, hmp, Notify.update_presence,
      Notify.update_signal, Notify.update_absent, hlast]
  refine ⟨?_, ?_, ?_, ?_⟩
  · obtain ⟨o1, h1, -, -⟩ := write_sysfs_string_issue env .trigger ['n', 'o', 'n', 'e'] w
    obtain ⟨o2, h2⟩ := set_led_brightness_issue env .link port.link_led_fd LED_OFF
      (Notify.disable_netdev_trigger env w)
    obtain ⟨o3, h3⟩ := set_led_brightness_issue env .activity port.activity_led_fd LED_OFF
      (Notify.set_led_brightness env .link port.link_led_fd LED_OFF
        (Notify.disable_netdev_trigger env w)).2
    obtain ⟨o4, h4⟩ := set_led_brightness_issue env .link port.link_led_fd LED_OFF
      (Notify.set_led_brightness env .activity port.activity_led_fd LED_OFF
        (Notify.set_led_brightness env .link port.link_led_fd LED_OFF
          (Notify.disable_netdev_trigger env w)).2).2
    obtain ⟨o5, h5⟩ := set_led_brightness_issue env .activity port.activity_led_fd LED_OFF
      (Notify.set_led_brightness env .link port.link_led_fd LED_OFF
        (Notify.set_led_brightness env .activity port.activity_led_fd LED_OFF
          (Notify.set_led_brightness env .link port.link_led_fd LED_OFF
            (Notify.disable_netdev_trigger env w)).2).2).2
    refine ⟨o1, o2, o3, o4, o5, issued_of_trace _ _ _ ?_⟩
    rw [hw, h5, h4, h3, h2]
    simp [Notify.disable_netdev_trigger, h1, hlink, hact]
  · intro hok
    rw [hw]
    simp [set_led_brightness_ok, hok, hlink, hact, World.emit, brightness_after,
      List.foldl_append, LED_OFF]
  · rw [update_port_fst]
    simp [Notify.observe, hmp, hlast]
  · rw [update_port_fst]
    simp [Notify.observe, hmp, hlast]

/-- Witness of C16: a port that remembers a module with signal, on a snapshot of an empty
cage. -/
theorem module_removed_witness :
    (∃ o1 o2 o3 o4 o5, issued World.init (Notify.update_port env_resolved blob_absent
        { port_open with last_module_present := true, last_carrier_state := true }
        World.init).2 =
      [.sysfs .trigger ['n', 'o', 'n', 'e'] o1,
       .brightness .link LED_OFF (brightness_payload LED_OFF) o2,
       .brightness .activity LED_OFF (brightness_payload LED_OFF) o3,
       .brightness .link LED_OFF (brightness_payload LED_OFF) o4,
       .brightness .activity LED_OFF (brightness_payload LED_OFF) o5]) ∧
    (Notify.update_port env_resolved blob_absent
      { port_open with last_module_present := true, last_carrier_state := true }
      World.init).1.last_module_present = false :=
  ⟨(module_removed env_resolved blob_absent
      { port_open with last_module_present := true, last_carrier_state := true } World.init
      (by decide) (by decide) rfl (by decide)).1,
   (module_removed env_resolved blob_absent
      { port_open with last_module_present := true, last_carrier_state := true } World.init
      (by decide) (by decide) rfl (by decide)).2.2.1⟩

/-- C17: signal gained.  For every port state with `last_module_present = true` and
`last_carrier_state = false` and a snapshot with the module present and `rx_los` clear,
with all writes succeeding (every `open`, `lseek` and `write` succeeds and both LED handles
are open), `update_port` issues exactly: link LED brightness <- `LED_MAX`, trigger <-
`none`, activity LED brightness <- 0, then the bind sequence trigger <- `netdev`,
device_name, tx <- `1`, rx <- `1`; the last trigger write is `netdev` and
`last_carrier_state` ends true. -/
theorem signal_gained (env : Env) (f : StatusFile) (port : sfp_port) (w : World)
    (init : List Char) (hok : ∀ n, env.ok n = true) (hdesc : ∀ n, 0 ≤ env.desc n)
    (hlink : 0 ≤ port.link_led_fd) (hact : 0 ≤ port.activity_led_fd)
    (hlast : port.last_module_present = true) (hcar : port.last_carrier_state = false)
    (hmp : Notify.read_module_present port.mod_present_fd f = true)
    (hlos : Notify.read_rx_los port.mod_present_fd f = false) :
    issued w (Notify.update_port env f port w).2 =
      [.brightness .link LED_MAX (brightness_payload LED_MAX) .done,
       .sysfs .trigger ['n', 'o', 'n', 'e'] .done,
       .brightness .activity LED_OFF (brightness_payload LED_OFF) .done,
       .sysfs .trigger ['n', 'e', 't', 'd', 'e', 'v'] .done,
       .sysfs .device_name port.netdev .done,
       .sysfs .tx ['1'] .done,
       .sysfs .rx ['1'] .done] ∧
    trigger_after init (Notify.update_port env f port w).2.trace
      = ['n', 'e', 't', 'd', 'e', 'v'] ∧
    (Notify.update_port env f port w).1.last_module_present = true ∧
    (Notify.update_port env f port w).1.last_carrier_state = true := by
  have ht : (Notify.update_port env f port w).2.trace = w.trace ++
      [.brightness .link LED_MAX (brightness_payload LED_MAX) .done,
       .sysfs .trigger ['n', 'o', 'n', 'e'] .done,
       .brightness .activity LED_OFF (brightness_payload LED_OFF) .done,
       .sysfs .trigger ['n', 'e', 't', 'd', 'e', 'v'] .done,
       .sysfs .device_name port.netdev .done,
       .sysfs .tx ['1'] .done,
       .sysfs .rx ['1'] .done] := by
    simp [Notify.update_port, Notify.observe, hmp, hlos, Notify.update_presence,
      Notify.update_signal, Notify.update_absent, hlast, hcar, set_led_brightness_ok,
      setup_netdev_trigger_ok, Notify.disable_netdev_trigger, write_sysfs_string_ok, hok,
      hdesc, hlink, hact, World.emit]
  refine ⟨issued_of_trace _ _ _ ht, ?_, ?_, ?_⟩
  · rw [ht]
    simp [trigger_after, List.foldl_append]
  · rw [update_port_fst]
    simp [Notify.observe, hmp, hlos, hlast, hcar]
  · rw [update_port_fst]
    simp [Notify.observe, hmp, hlos, hlast, hcar]

/-- Witness of C17: a port that remembers a module without signal, on a snapshot with a
signal. -/
theorem signal_gained_witness :
    issued World.init (Notify.update_port env_resolved blob_signal
        { port_open with last_module_present := true } World.init).2 =
      [.brightness .link LED_MAX (brightness_payload LED_MAX) .done,
       .sysfs .trigger ['n', 'o', 'n', 'e'] .done,
       .brightness .activity LED_OFF (brightness_payload LED_OFF) .done,
       .sysfs .trigger ['n', 'e', 't', 'd', 'e', 'v'] .done,
       .sysfs .device_name port_open.netdev .done,
       .sysfs .tx ['1'] .done,
       .sysfs .rx ['1'] .done] :=
  (signal_gained env_resolved blob_signal { port_open with last_module_present := true }
    World.init [] (fun _ => rfl) (fun n => by simp [env_resolved, env_ok]; omega)
    (by decide) (by decide) rfl rfl (by decide) (by decide)).1

/-! ### Trigger bind, notification variant -/

/-- Counterexample to C18: when the write of `netdev` to the trigger file fails,
`setup_netdev_trigger` returns at once; device_name, tx and rx are not attempted. -/
theorem trigger_bind_stops_at_failed_trigger_write :
    issued World.init (Notify.setup_netdev_trigger (env_until 1) port_open World.init) =
      [.sysfs .trigger ['n', 'e', 't', 'd', 'e', 'v'] .write_failed] := by
  decide

/-- C18 as amended: `setup_netdev_trigger` attempts its steps in the order trigger <-
`netdev`, device_name <- interface name, tx <- `1`, rx <- `1`.  A failure of the trigger
write ends the sequence after that step, a failure of the device_name write ends it after
that step, and once both have succeeded tx and rx are both attempted, whatever the outcome
of the tx write. -/
theorem trigger_bind_steps (env : Env) (port : sfp_port) (w : World) :
    (∃ o, o ≠ Outcome.done ∧ issued w (Notify.setup_netdev_trigger env port w) =
      [.sysfs .trigger ['n', 'e', 't', 'd', 'e', 'v'] o]) ∨
    (∃ o, o ≠ Outcome.done ∧ issued w (Notify.setup_netdev_trigger env port w) =
      [.sysfs .trigger ['n', 'e', 't', 'd', 'e', 'v'] .done,
       .sysfs .device_name port.netdev o]) ∨
    (∃ o3 o4, issued w (Notify.setup_netdev_trigger env port w) =
      [.sysfs .trigger ['n', 'e', 't', 'd', 'e', 'v'] .done,
       .sysfs .device_name port.netdev .done,
       .sysfs .tx ['1'] o3, .sysfs .rx ['1'] o4]) := by
  obtain ⟨o1, h1, -, f1⟩ :=
    write_sysfs_string_issue env .trigger ['n', 'e', 't', 'd', 'e', 'v'] w
  unfold Notify.setup_netdev_trigger
  simp only []
  by_cases c1 : (Notify.write_sysfs_string env .trigger ['n', 'e', 't', 'd', 'e', 'v'] w).1 < 0
  · exact Or.inl ⟨o1, f1.1 c1, issued_of_trace _ _ _ (by simp [c1, h1])⟩
  · have e1 : o1 = .done := by
      by_contra hne
      exact c1 (f1.2 hne)
    subst e1
    obtain ⟨o2, h2, -, f2⟩ := write_sysfs_string_issue env .device_name port.netdev
      (Notify.write_sysfs_string env .trigger ['n', 'e', 't', 'd', 'e', 'v'] w).2
    by_cases c2 : (Notify.write_sysfs_string env .device_name port.netdev
        (Notify.write_sysfs_string env .trigger ['n', 'e', 't', 'd', 'e', 'v'] w).2).1 < 0
    · exact Or.inr (Or.inl ⟨o2, f2.1 c2, issued_of_trace _ _ _ (by simp [c1, c2, h2, h1])⟩)
    · have e2 : o2 = .done := by
        by_contra hne
        exact c2 (f2.2 hne)
      subst e2
      obtain ⟨o3, h3, -, -⟩ := write_sysfs_string_issue env .tx ['1']
        (Notify.write_sysfs_string env .device_name port.netdev
          (Notify.write_sysfs_string env .trigger ['n', 'e', 't', 'd', 'e', 'v'] w).2).2
      obtain ⟨o4, h4, -, -⟩ := write_sysfs_string_issue env .rx ['1']
        (Notify.write_sysfs_string env .tx ['1']
          (Notify.write_sysfs_string env .device_name port.netdev
            (Notify.write_sysfs_string env .trigger ['n', 'e', 't', 'd', 'e', 'v'] w).2).2).2
      exact Or.inr (Or.inr ⟨o3, o4, issued_of_trace _ _ _ (by simp [c1, c2, h4, h3, h2, h1])⟩)

/-! ### Clean-up, notification variant -/

/-- The port `cleanup_port` leaves: the watch and every open handle marked absent, the
other fields as they were. -/
theorem cleanup_port_fst (env : Env) (port : sfp_port) (w : World) :
    (Notify.cleanup_port env port w).1 =
      { port with
        inotify_wd := if env.inotify_fd ≥ 0 ∧ port.inotify_wd ≥ 0 then -1 else port.inotify_wd,
        carrier_fd := if port.carrier_fd ≥ 0 then -1 else port.carrier_fd,
        link_led_fd := if port.link_led_fd ≥ 0 then -1 else port.link_led_fd,
        activity_led_fd := if port.activity_led_fd ≥ 0 then -1 else port.activity_led_fd,
        mod_present_fd := if port.mod_present_fd ≥ 0 then -1 else port.mod_present_fd } := by
  unfold Notify.cleanup_port
  simp only []
  split_ifs <;> simp_all

/-- The trace `cleanup_port` leaves: the watch removal, the two OFF calls, then the closes
of the open handles in the order carrier, link LED, activity LED, state file. -/
theorem cleanup_port_trace (env : Env) (port : sfp_port) (w : World) :
    (Notify.cleanup_port env port w).2.trace =
      (Notify.set_led_brightness env .activity port.activity_led_fd LED_OFF
        (Notify.set_led_brightness env .link port.link_led_fd LED_OFF
          (if env.inotify_fd ≥ 0 ∧ port.inotify_wd ≥ 0 then w.emit 1 .rm_watch
           else w)).2).2.trace
      ++ (if port.carrier_fd ≥ 0 then [Act.close .carrier] else [])
      ++ (if port.link_led_fd ≥ 0 then [Act.close .link_led] else [])
      ++ (if port.activity_led_fd ≥ 0 then [Act.close .activity_led] else [])
      ++ (if port.mod_present_fd ≥ 0 then [Act.close .mod_present] else []) := by
  unfold Notify.cleanup_port
  simp only []
  split_ifs <;> simp_all [World.emit]

/-- On a port without watch to remove and without open handle `cleanup_port` does
nothing. -/
theorem cleanup_port_nothing (env : Env) (port : sfp_port) (w : World)
    (hw : ¬ (env.inotify_fd ≥ 0 ∧ port.inotify_wd ≥ 0)) (hc : port.carrier_fd < 0)
    (hl : port.link_led_fd < 0) (ha : port.activity_led_fd < 0)
    (hm : port.mod_present_fd < 0) :
    Notify.cleanup_port env port w = (port, w) := by
  unfold Notify.cleanup_port
  simp [hw, not_le.2 hc, not_le.2 hl, not_le.2 ha, not_le.2 hm, set_led_brightness_absent, hl,
    ha]

/-- C19: clean-up totality of `cleanup_port`.  For every port state in which each of the
four handles is open or absent (-1), `cleanup_port` issues, after the removal of the watch
if there is one, an OFF write to each open LED handle, and only then the closes: one
`close` for every open handle and none for an absent one.  It leaves all four handles
marked absent (-1); therefore a second `cleanup_port` on the port it leaves changes
nothing: no write, no close, no system call. -/
theorem cleanup_port_total (env : Env) (port : sfp_port) (w : World)
    (hc : -1 ≤ port.carrier_fd) (hl : -1 ≤ port.link_led_fd)
    (ha : -1 ≤ port.activity_led_fd) (hm : -1 ≤ port.mod_present_fd) :
    (∃ o1 o2, issued w (Notify.cleanup_port env port w).2 =
      (if env.inotify_fd ≥ 0 ∧ port.inotify_wd ≥ 0 then [Act.rm_watch] else [])
      ++ (if 0 ≤ port.link_led_fd then
            [Act.brightness .link LED_OFF (brightness_payload LED_OFF) o1] else [])
      ++ (if 0 ≤ port.activity_led_fd then
            [Act.brightness .activity LED_OFF (brightness_payload LED_OFF) o2] else [])
      ++ (if 0 ≤ port.carrier_fd then [Act.close .carrier] else [])
      ++ (if 0 ≤ port.link_led_fd then [Act.close .link_led] else [])
      ++ (if 0 ≤ port.activity_led_fd then [Act.close .activity_led] else [])
      ++ (if 0 ≤ port.mod_present_fd then [Act.close .mod_present] else [])) ∧
    ((Notify.cleanup_port env port w).1.carrier_fd = -1 ∧
      (Notify.cleanup_port env port w).1.link_led_fd = -1 ∧
      (Notify.cleanup_port env port w).1.activity_led_fd = -1 ∧
      (Notify.cleanup_port env port w).1.mod_present_fd = -1) ∧
    Notify.cleanup_port env (Notify.cleanup_port env port w).1
      (Notify.cleanup_port env port w).2 = Notify.cleanup_port env port w := by
  have hfds : (Notify.cleanup_port env port w).1.carrier_fd = -1 ∧
      (Notify.cleanup_port env port w).1.link_led_fd = -1 ∧
      (Notify.cleanup_port env port w).1.activity_led_fd = -1 ∧
      (Notify.cleanup_port env port w).1.mod_present_fd = -1 := by
    rw [cleanup_port_fst]
    refine ⟨?_, ?_, ?_, ?_⟩ <;> (simp only []; split_ifs <;> omega)
  refine ⟨?_, hfds, ?_⟩
  · obtain ⟨o1, h1⟩ := set_led_brightness_issue env .link port.link_led_fd LED_OFF
      (if env.inotify_fd ≥ 0 ∧ port.inotify_wd ≥ 0 then w.emit 1 .rm_watch else w)
    obtain ⟨o2, h2⟩ := set_led_brightness_issue env .activity port.activity_led_fd LED_OFF
      (Notify.set_led_brightness env .link port.link_led_fd LED_OFF
        (if env.inotify_fd ≥ 0 ∧ port.inotify_wd ≥ 0 then w.emit 1 .rm_watch else w)).2
    refine ⟨o1, o2, issued_of_trace _ _ _ ?_⟩
    rw [cleanup_port_trace, h2, h1]
    split_ifs <;> simp [World.emit]
  · obtain ⟨h1, h2, h3, h4⟩ := hfds
    have hwd : ¬ (env.inotify_fd ≥ 0 ∧ (Notify.cleanup_port env port w).1.inotify_wd ≥ 0) := by
      rw [cleanup_port_fst]
      simp only []
      split_ifs with hcond
      · simp
      · exact hcond
    exact cleanup_port_nothing env _ _ hwd (by rw [h1]; decide) (by rw [h2]; decide)
      (by rw [h3]; decide) (by rw [h4]; decide)

/-- Witness of C19: a port with the four handles open and no watch. -/
theorem cleanup_port_total_witness :
    (∃ o1 o2, issued World.init (Notify.cleanup_port env_resolved port_open World.init).2 =
      [Act.brightness .link LED_OFF (brightness_payload LED_OFF) o1,
       Act.brightness .activity LED_OFF (brightness_payload LED_OFF) o2,
       Act.close .carrier, Act.close .link_led, Act.close .activity_led,
       Act.close .mod_present]) ∧
    Notify.cleanup_port env_resolved (Notify.cleanup_port env_resolved port_open World.init).1
      (Notify.cleanup_port env_resolved port_open World.init).2
      = Notify.cleanup_port env_resolved port_open World.init :=
  ⟨(cleanup_port_total env_resolved port_open World.init (by decide) (by decide) (by decide)
      (by decide)).1,
   (cleanup_port_total env_resolved port_open World.init (by decide) (by decide) (by decide)
      (by decide)).2.2⟩

/-! ### Reachable port states, notification variant -/

/-- A failed `setup_port` leaves `last_module_present` alone and the state file closed,
when it was closed before. -/
theorem setup_port_failure (env : Env) (f : StatusFile) (port : sfp_port) (w : World) :
    (Notify.setup_port env f port w).1 = 0 ∨
    ((Notify.setup_port env f port w).2.1.last_module_present = port.last_module_present ∧
      (port.mod_present_fd < 0 → (Notify.setup_port env f port w).2.1.mod_present_fd < 0)) := by
  unfold Notify.setup_port
  simp only []
  repeat' split
  all_goals
    first
    | exact Or.inl rfl
    | exact Or.inr ⟨rfl, fun h => h⟩
    | skip
  all_goals
    right
    simp only [Notify.setup_port_fail, cleanup_port_fst]
    refine ⟨?_, fun _ => by split_ifs <;> omega⟩
  all_goals
    first
    | rfl
    | trivial
    | (rename_i heq _ _ _ _
       split_ifs at heq <;> cases heq <;> rfl)
    | (rename_i heq _ _ _
       split_ifs at heq <;> cases heq <;> rfl)
    | (rename_i heq _ _
       split_ifs at heq <;> cases heq <;> rfl)
    | (rename_i heq _
       split_ifs at heq <;> cases heq <;> rfl)

/-- A module is seen only through an open state file. -/
theorem read_module_present_open (fd : Int) (f : StatusFile)
    (h : Notify.read_module_present fd f = true) : 0 ≤ fd := by
  by_contra hneg
  have hlt : fd < 0 := not_le.1 hneg
  simp [Notify.read_module_present, hlt] at h

/-- Start-up of a port that has no state file open and remembers no module leaves
consistent handles. -/
theorem setup_port_consistent (env : Env) (f : StatusFile) (port : sfp_port) (w : World)
    (hfd : port.mod_present_fd < 0) (hlast : port.last_module_present = false) :
    Notify.handles_consistent (Notify.setup_port env f port w).2.1 := by
  rcases setup_port_cases env f port w with hfail | ⟨q, v, _, _, hl, ha, heq⟩
  · rcases setup_port_failure env f port w with h0 | ⟨h1, h2⟩
    · rw [hfail] at h0
      exact absurd h0 (by decide)
    · refine ⟨fun h => ?_, fun h => ?_⟩
      · rw [h1, hlast] at h
        exact absurd h (by decide)
      · have := h2 hfd
        omega
  · rw [heq]
    simp only [setup_port_state_fst]
    exact ⟨fun h => read_module_present_open _ f h, fun _ => ⟨hl, ha⟩⟩

/-- `update_port` keeps the handles consistent. -/
theorem update_port_consistent (env : Env) (f : StatusFile) (port : sfp_port) (w : World)
    (h : Notify.handles_consistent port) :
    Notify.handles_consistent (Notify.update_port env f port w).1 := by
  obtain ⟨_, hl, ha, hmp, _⟩ := update_port_settles env f port w
  have hfd : (Notify.update_port env f port w).1.mod_present_fd = port.mod_present_fd := by
    rw [update_port_fst]
    simp only []
    split_ifs <;> rfl
  refine ⟨fun hlast => ?_, fun hopen => ?_⟩
  · rw [hfd]
    rw [hmp] at hlast
    exact read_module_present_open _ f hlast
  · rw [hfd] at hopen
    have := h.2 hopen
    exact ⟨by rw [show (Notify.update_port env f port w).1.link_led_fd = port.link_led_fd from hl]
              exact this.1,
           by rw [show (Notify.update_port env f port w).1.activity_led_fd
                = port.activity_led_fd from ha]
              exact this.2⟩

/-- Every state a port reaches from its static initialiser, through `setup_port` and any
number of `update_port`, has consistent handles: whenever a module is seen or remembered
there, both LED handles are open. -/
theorem reachable_consistent (env : Env) (f0 : StatusFile) (fs : List StatusFile)
    (port : sfp_port) (w : World) (hfd : port.mod_present_fd < 0)
    (hlast : port.last_module_present = false) :
    Notify.handles_consistent
      (Notify.poll env fs (Notify.setup_port env f0 port w).2.1
        (Notify.setup_port env f0 port w).2.2).1 := by
  have h0 := setup_port_consistent env f0 port w hfd hlast
  generalize (Notify.setup_port env f0 port w).2.1 = q at h0
  generalize (Notify.setup_port env f0 port w).2.2 = v
  induction fs generalizing q v with
  | nil => exact h0
  | cons f fs ih =>
    exact ih _ (update_port_consistent env f q v h0) _

/-! ### Start-up, poll-only variant -/

/-- C13, evaluated: start-up of port 0 of the poll-only daemon on an empty cage, every call
succeeding.  `setup_port` succeeds with `last_module_present = false` and issues only the
two OFF writes, but the loop of `main` then calls `setup_netdev_trigger` for every port
whose set-up succeeded: `netdev` is written to the trigger file of the activity LED,
followed by the device name, `tx` and `rx`. -/
theorem poll_only_startup_binds_trigger_without_module :
    (PollOnly.setup_port env_resolved blob_absent PollOnly.port0 World.init).1 = 0 ∧
    (PollOnly.setup_port env_resolved blob_absent PollOnly.port0
      World.init).2.1.last_module_present = false ∧
    (PollOnly.setup_port env_resolved blob_absent PollOnly.port0 World.init).2.2.trace =
      [.brightness .link 0 (some ['0', '\n']) .done,
       .brightness .activity 0 (some ['0', '\n']) .done] ∧
    (PollOnly.main_setup_port env_resolved blob_absent PollOnly.port0 World.init).2.trace =
      [.brightness .link 0 (some ['0', '\n']) .done,
       .brightness .activity 0 (some ['0', '\n']) .done,
       .sysfs .trigger "netdev".toList .done,
       .sysfs .device_name "fm1-mac9".toList .done,
       .sysfs .tx "1".toList .done,
       .sysfs .rx "1".toList .done] := by
  decide

/-! ### Clean-up, plugin -/

/-- C20, evaluated: `sfp_led_cleanup` closes the handles of a port without marking them
closed.  On a port with its three handles open the first invocation writes OFF to both
LEDs and closes the three handles; a second invocation finds the same non-negative
handle values, rewinds and would write again (the rewind fails here, the descriptors being
closed), and calls `close` on each of the three handles a second time. -/
theorem plugin_cleanup_twice_closes_twice :
    Plugin.cleanup_once.2.trace =
      [.brightness 0 .link 0 (some ['0', '\n']) .done, .close 0 .link_led,
       .brightness 0 .activity 0 (some ['0', '\n']) .done, .close 0 .activity_led,
       .close 0 .sfp_debug] ∧
    Plugin.cleanup_twice.1 = [Plugin.port_with 10 11 12] ∧
    Plugin.cleanup_twice.2.trace.drop Plugin.cleanup_once.2.trace.length =
      [.brightness 0 .link 0 (some ['0', '\n']) .not_written, .close 0 .link_led,
       .brightness 0 .activity 0 (some ['0', '\n']) .not_written, .close 0 .activity_led,
       .close 0 .sfp_debug] := by
  decide

/-! ### The two module-presence parsers -/

/-- Newlines in front of a text are empty lines, which no key starts. -/
theorem first_line_with_skip_newlines (key : List Char) (hkey : key ≠ []) (s : List Char) :
    first_line_with key (s.dropWhile (fun c => c == '\n')) = first_line_with key s := by
  induction s with
  | nil => rfl
  | cons c cs ih =>
    by_cases hc : c = '\n'
    · subst hc
      have hnil : key.isPrefixOf ([] : List Char) = false := by
        cases key with
        | nil => exact absurd rfl hkey
        | cons a as => rfl
      have hstep : first_line_with key ('\n' :: cs) = first_line_with key cs := by
        simp [first_line_with, text_lines, List.find?_cons, hnil]
      rw [hstep, ← ih]
      simp [List.dropWhile_cons]
    · have hb : (c == '\n') = false := by simpa using hc
      simp [List.dropWhile_cons, hb]

/-- The `strtok_r` loop finds the first line that starts with the key and tests the first
character after the key and the spaces; the fuel of one unit per byte is enough. -/
theorem strtok_lines_eq (key : List Char) (hkey : key ≠ []) :
    ∀ (fuel : Nat) (rest : List Char), rest.length < fuel →
      PollOnly.strtok_lines key key.length fuel rest =
        match first_line_with key rest with
        | none => false
        | some l => decide (value_char key l = some '1') := by
  intro fuel
  induction fuel with
  | zero => intro rest h; omega
  | succ fuel ih =>
    intro rest hlen
    unfold PollOnly.strtok_lines
    rw [← first_line_with_skip_newlines key hkey rest]
    have hstart := (List.dropWhile_suffix (l := rest) (fun c => c == '\n')).length_le
    generalize List.dropWhile (fun c => c == '\n') rest = start at hstart
    simp only []
    by_cases hs : start = []
    · subst hs
      have : key.isPrefixOf ([] : List Char) = false := by
        cases key with
        | nil => exact absurd rfl hkey
        | cons a as => rfl
      simp [first_line_with, text_lines, this]
    · simp only [hs, if_false, strncmp_eq_iff_starts]
      unfold first_line_with
      rw [text_lines_unfold start, List.find?_cons]
      cases hp : key.isPrefixOf (List.takeWhile (fun c => c != '\n') start) with
      | true => simp [value_char]
      | false =>
        simp only [Bool.false_eq_true, if_false]
        have hsuf := (List.dropWhile_suffix (l := start) (fun c => c != '\n')).length_le
        cases hd : List.dropWhile (fun c => c != '\n') start with
        | nil =>
          cases fuel with
          | zero => simp [PollOnly.strtok_lines]
          | succ k => simp [PollOnly.strtok_lines]
        | cons x next =>
          rw [hd] at hsuf
          simp only [List.length_cons] at hsuf
          simp only [List.drop_succ_cons, List.drop_zero]
          rw [ih next (by omega)]
          rfl

/-- The value the `strtok_r` parser returns on a state file that is opened and read. -/
theorem poll_only_read_module_present_eq (fd : Int) (hfd : 0 ≤ fd) (content : List Char) :
    PollOnly.read_module_present fd ⟨true, some content⟩ =
      match first_line_with MODDEF0_PREFIX (c_str (read_bytes 511 content)) with
      | none => false
      | some l => decide (value_char MODDEF0_PREFIX l = some '1') := by
  have hfd' : ¬ fd < 0 := by omega
  simp only [PollOnly.read_module_present, hfd', if_false, Bool.not_true, Bool.false_eq_true]
  by_cases h0 : (read_bytes (512 - 1) content).length = 0
  · have : read_bytes 511 content = [] := List.length_eq_zero.1 h0
    simp [h0, this, c_str, first_line_with, text_lines, MODDEF0_PREFIX]
  · simp only [h0, if_false]
    exact strtok_lines_eq MODDEF0_PREFIX (by decide) _ _ (c_str_read_length content)

/-- C25: the two module-presence parsers agree.  For every handle and every state file,
hence for every buffer content (any bytes, cut at 511 and at the first NUL), the
notification variant's `read_module_present` (line scan with `strchr`, which visits empty
lines) and the `read_module_present` of the poll-only daemon and of the plugin (`strtok_r`
on newline, which skips empty lines) return the same boolean. -/
theorem module_presence_parsers_agree (fd : Int) (f : StatusFile) :
    Notify.read_module_present fd f = PollOnly.read_module_present fd f ∧
    Notify.read_module_present fd f = Plugin.read_module_present fd f := by
  have hplug : Plugin.read_module_present fd f = PollOnly.read_module_present fd f := rfl
  rw [hplug, and_self]
  obtain ⟨seek_ok, content⟩ := f
  by_cases hfd : fd < 0
  · simp [Notify.read_module_present, PollOnly.read_module_present, hfd]
  · cases seek_ok with
    | false => simp [Notify.read_module_present, PollOnly.read_module_present]
    | true =>
      cases content with
      | none => simp [Notify.read_module_present, PollOnly.read_module_present]
      | some c =>
        rw [read_module_present_eq fd (by omega) c,
          poll_only_read_module_present_eq fd (by omega) c]

/-! ### Absent status handle, notification variant -/

/-- The OFF call of `set_led_brightness` adds only dark actions. -/
theorem set_led_brightness_off_dark (env : Env) (led : Led) (fd : Int) (w : World) :
    ∃ l, (Notify.set_led_brightness env led fd LED_OFF w).2.trace = w.trace ++ l ∧
      ∀ a ∈ l, Act.keeps_dark a = true := by
  obtain ⟨l, h, _, hl⟩ := set_led_brightness_trace env led fd LED_OFF w
  refine ⟨l, h, fun a ha => ?_⟩
  obtain ⟨p, o, rfl⟩ := hl a ha
  rfl

/-- `cleanup_port` adds only dark actions. -/
theorem cleanup_port_dark (env : Env) (port : sfp_port) (w : World) :
    ∃ l, (Notify.cleanup_port env port w).2.trace = w.trace ++ l ∧
      ∀ a ∈ l, Act.keeps_dark a = true := by
  obtain ⟨l1, h1, d1⟩ := set_led_brightness_off_dark env .link port.link_led_fd
    (if env.inotify_fd ≥ 0 ∧ port.inotify_wd ≥ 0 then w.emit 1 .rm_watch else w)
  obtain ⟨l2, h2, d2⟩ := set_led_brightness_off_dark env .activity port.activity_led_fd
    (Notify.set_led_brightness env .link port.link_led_fd LED_OFF
      (if env.inotify_fd ≥ 0 ∧ port.inotify_wd ≥ 0 then w.emit 1 .rm_watch else w)).2
  refine ⟨(if env.inotify_fd ≥ 0 ∧ port.inotify_wd ≥ 0 then [Act.rm_watch] else [])
      ++ l1 ++ l2
      ++ (if port.carrier_fd ≥ 0 then [Act.close .carrier] else [])
      ++ (if port.link_led_fd ≥ 0 then [Act.close .link_led] else [])
      ++ (if port.activity_led_fd ≥ 0 then [Act.close .activity_led] else [])
      ++ (if port.mod_present_fd ≥ 0 then [Act.close .mod_present] else []), ?_, ?_⟩
  · rw [cleanup_port_trace, h2, h1]
    split_ifs <;> simp [World.emit]
  · intro a ha
    simp only [List.mem_append] at ha
    rcases ha with (((((ha | ha) | ha) | ha) | ha) | ha) | ha
    · split_ifs at ha
      · simp only [List.mem_singleton] at ha
        subst ha
        rfl
      · simp at ha
    · exact d1 a ha
    · exact d2 a ha
    all_goals
      split_ifs at ha
      · simp only [List.mem_singleton] at ha
        subst ha
        rfl
      · simp at ha

/-- The three exits of `setup_port`: an early return that has issued nothing, the clean-up
exit, and the successful one, the last two from a state reached without issuing
anything. -/
theorem setup_port_exits (env : Env) (f : StatusFile) (port : sfp_port) (w : World) :
    (∃ q, Notify.setup_port env f port w = (-1, q, w)) ∨
    (∃ q v, v.trace = w.trace ∧
      Notify.setup_port env f port w = Notify.setup_port_fail env q v) ∨
    (∃ q v, v.trace = w.trace ∧
      Notify.setup_port env f port w = (0, Notify.setup_port_state env f q v)) := by
  unfold Notify.setup_port
  simp only []
  split
  · exact Or.inl ⟨_, rfl⟩
  split
  · exact Or.inl ⟨_, rfl⟩
  split
  · refine Or.inr (Or.inl ⟨_, _, ?_, rfl⟩)
    rfl
  · rename_i watch q v heq
    have hv : v.trace = w.trace := by
      split at heq
      · split at heq
        · cases heq
        · cases heq; rfl
      · cases heq; rfl
    repeat' split
    all_goals
      first
      | (refine Or.inr (Or.inl ⟨_, _, ?_, rfl⟩)
         exact hv)
      | (refine Or.inr (Or.inr ⟨_, _, ?_, rfl⟩)
         exact hv)

/-- Through an absent handle no module is seen. -/
theorem read_module_present_absent (fd : Int) (f : StatusFile) (h : fd < 0) :
    Notify.read_module_present fd f = false := by
  simp [Notify.read_module_present, h]

/-- A `setup_port` that leaves the status handle absent, on a port that remembers no
module, leaves `last_module_present` false and has issued only dark actions. -/
theorem setup_port_absent_handle (env : Env) (f : StatusFile) (port : sfp_port) (w : World)
    (hlast : port.last_module_present = false)
    (habs : (Notify.setup_port env f port w).2.1.mod_present_fd < 0) :
    (Notify.setup_port env f port w).2.1.last_module_present = false ∧
    ∃ l, (Notify.setup_port env f port w).2.2.trace = w.trace ++ l ∧
      ∀ a ∈ l, Act.keeps_dark a = true := by
  have hfail := setup_port_failure env f port w
  rcases setup_port_exits env f port w with ⟨q, heq⟩ | ⟨q, v, hv, heq⟩ | ⟨q, v, hv, heq⟩
  · have hne : ¬ (Notify.setup_port env f port w).1 = 0 := by rw [heq]; simp
    refine ⟨?_, [], ?_, by simp⟩
    · rcases hfail with h0 | ⟨h1, _⟩
      · exact absurd h0 hne
      · rw [h1, hlast]
    · rw [heq]
      simp
  · have hne : ¬ (Notify.setup_port env f port w).1 = 0 := by
      rw [heq, setup_port_fail_ret]; decide
    refine ⟨?_, ?_⟩
    · rcases hfail with h0 | ⟨h1, _⟩
      · exact absurd h0 hne
      · rw [h1, hlast]
    · obtain ⟨l, hl, hd⟩ := cleanup_port_dark env q v
      refine ⟨l, ?_, hd⟩
      rw [heq]
      simp only [Notify.setup_port_fail]
      rw [hl, hv]
  · rw [heq] at habs ⊢
    simp only [setup_port_state_fst] at habs ⊢
    have hread := read_module_present_absent q.mod_present_fd f habs
    refine ⟨hread, ?_⟩
    obtain ⟨l1, h1, d1⟩ := set_led_brightness_off_dark env .link q.link_led_fd v
    obtain ⟨l2, h2, d2⟩ := set_led_brightness_off_dark env .activity q.activity_led_fd
      (Notify.set_led_brightness env .link q.link_led_fd LED_OFF v).2
    refine ⟨l1 ++ l2, ?_, ?_⟩
    · simp only [Notify.setup_port_state, hread, Bool.false_eq_true, if_false]
      rw [h2, h1, hv, List.append_assoc]
    · intro a ha
      rcases List.mem_append.1 ha with h | h
      · exact d1 a h
      · exact d2 a h

/-- With the status handle absent and no module remembered, any number of `update_port`
keeps `last_module_present` false and issues only dark actions. -/
theorem poll_absent_handle (env : Env) (fs : List StatusFile) :
    ∀ (q : sfp_port) (v : World), q.mod_present_fd < 0 → q.last_module_present = false →
      (Notify.poll env fs q v).1.last_module_present = false ∧
      ∃ l, (Notify.poll env fs q v).2.trace = v.trace ++ l ∧
        ∀ a ∈ l, Act.keeps_dark a = true := by
  induction fs with
  | nil =>
    intro q v _ hlast
    exact ⟨hlast, [], by simp [Notify.poll], by simp⟩
  | cons f fs ih =>
    intro q v hfd hlast
    have hobs : (Notify.observe q f).1 = false := read_module_present_absent _ f hfd
    have hstep := update_port_steady env f q v (by rw [hobs, hlast])
      (by rw [hobs]; intro h; exact absurd h (by decide))
    rw [hobs] at hstep
    obtain ⟨l1, h1, d1⟩ := set_led_brightness_off_dark env .link q.link_led_fd v
    obtain ⟨l2, h2, d2⟩ := set_led_brightness_off_dark env .activity q.activity_led_fd
      (Notify.set_led_brightness env .link q.link_led_fd LED_OFF v).2
    have htr : (Notify.update_port env f q v).2.trace = v.trace ++ (l1 ++ l2) := by
      rw [hstep]
      simp only [Notify.update_absent, Bool.not_false, if_true]
      rw [h2, h1, List.append_assoc]
    have hq : (Notify.update_port env f q v).1 = q := by rw [hstep]
    obtain ⟨hl, l, hl2, hd⟩ := ih (Notify.update_port env f q v).1
      (Notify.update_port env f q v).2 (by rw [hq]; exact hfd) (by rw [hq]; exact hlast)
    refine ⟨hl, l1 ++ l2 ++ l, ?_, ?_⟩
    · simp only [Notify.poll]
      rw [hl2, htr, List.append_assoc]
    · intro a ha
      rcases List.mem_append.1 ha with h | h
      · rcases List.mem_append.1 h with h | h
        · exact d1 a h
        · exact d2 a h
      · exact hd a h

/-- C23: absent status handle means module absent.  For every port that starts without a
remembered module and whose status handle is absent after `setup_port` (it could not be
opened, or set-up failed), and every run made of that `setup_port` followed by any number
of `update_port` calls, `last_module_present` stays false, no trigger, device_name, tx or
rx write is ever issued, and every brightness call issued to either LED has value 0. -/
theorem absent_handle_stays_dark (env : Env) (f0 : StatusFile) (fs : List StatusFile)
    (port : sfp_port) (w : World) (hlast : port.last_module_present = false)
    (habs : (Notify.setup_port env f0 port w).2.1.mod_present_fd < 0) :
    (Notify.poll env fs (Notify.setup_port env f0 port w).2.1
      (Notify.setup_port env f0 port w).2.2).1.last_module_present = false ∧
    ∀ a ∈ issued w (Notify.poll env fs (Notify.setup_port env f0 port w).2.1
        (Notify.setup_port env f0 port w).2.2).2,
      (∀ attr value o, a ≠ Act.sysfs attr value o) ∧
      (∀ led v payload o, a = Act.brightness led v payload o → v = LED_OFF) := by
  obtain ⟨hs, l0, hl0, hd0⟩ := setup_port_absent_handle env f0 port w hlast habs
  obtain ⟨hp, l, hl, hd⟩ := poll_absent_handle env fs _ (Notify.setup_port env f0 port w).2.2
    habs hs
  refine ⟨hp, fun a ha => ?_⟩
  have hi : issued w (Notify.poll env fs (Notify.setup_port env f0 port w).2.1
      (Notify.setup_port env f0 port w).2.2).2 = l0 ++ l :=
    issued_of_trace _ _ _ (by rw [hl, hl0, List.append_assoc])
  rw [hi] at ha
  have hdark : Act.keeps_dark a = true := by
    rcases List.mem_append.1 ha with h | h
    · exact hd0 a h
    · exact hd a h
  refine ⟨fun attr value o he => ?_, fun led v payload o he => ?_⟩
  · subst he
    simp [Act.keeps_dark] at hdark
  · subst he
    simpa [Act.keeps_dark, LED_OFF] using hdark

/-- Witness of C23: port 0 in an environment where the state file cannot be opened (the
third `open` fails), started on a blob that shows a module with signal and polled twice on
the same blob. -/
theorem absent_handle_stays_dark_witness :
    (Notify.poll env_no_state [blob_signal, blob_signal]
      (Notify.setup_port env_no_state blob_signal Notify.port0 World.init).2.1
      (Notify.setup_port env_no_state blob_signal Notify.port0
        World.init).2.2).1.last_module_present = false :=
  (absent_handle_stays_dark env_no_state blob_signal [blob_signal, blob_signal] Notify.port0
    World.init rfl (by decide)).1

/-! ### Poll loop, poll-only variant -/

/-- The last brightness written by a trace that extends another. -/
theorem brightness_after_append (led : Led) (t l : List Act) :
    brightness_after led (t ++ l) =
      l.foldl (fun cur a => match a with
        | .brightness l v _ .done => if l = led then some v else cur
        | _ => cur) (brightness_after led t) := by
  simp [brightness_after, List.foldl_append]

/-- On an open handle, with the rewind and the write succeeding, the poll-only
`set_led_brightness` returns 0 after the one completed call. -/
theorem poll_only_set_led_brightness_ok (env : Env) (led : Led) (fd v : Int) (w : World)
    (hok : ∀ n, env.ok n = true) (hfd : 0 ≤ fd) :
    PollOnly.set_led_brightness env led fd v w =
      (0, w.emit 2 (.brightness led v (brightness_payload v) .done)) := by
  simp [PollOnly.set_led_brightness, not_lt.2 hfd, hok]

/-- With the open and the write succeeding, the block `open`, `write`, `close` makes its
one completed call. -/
theorem open_write_close_ok (env : Env) (attr : Attr) (value : List Char) (w : World)
    (hok : ∀ n, env.ok n = true) (hdesc : ∀ n, 0 ≤ env.desc n) :
    PollOnly.open_write_close env attr value w = w.emit 3 (.sysfs attr value .done) := by
  simp [PollOnly.open_write_close, not_lt.2 (hdesc _), hok]

/-- With every call succeeding, the poll-only `setup_netdev_trigger` makes its four
writes. -/
theorem poll_only_setup_netdev_trigger_ok (env : Env) (port : PollOnly.sfp_port) (w : World)
    (hok : ∀ n, env.ok n = true) (hdesc : ∀ n, 0 ≤ env.desc n) :
    (PollOnly.setup_netdev_trigger env port w).trace =
      w.trace ++ [.sysfs .trigger ['n', 'e', 't', 'd', 'e', 'v'] .done,
                  .sysfs .device_name port.netdev .done,
                  .sysfs .tx ['1'] .done, .sysfs .rx ['1'] .done] := by
  simp [PollOnly.setup_netdev_trigger, open_write_close_ok, hok, hdesc, not_lt.2 (hdesc _),
    World.emit]

/-- A successful poll-only `setup_port`, with all writes succeeding, leaves the link LED
tracking the port memory. -/
theorem poll_only_setup_tracks (env : Env) (f0 : StatusFile) (port : PollOnly.sfp_port)
    (w : World) (hok : ∀ n, env.ok n = true) (hdesc : ∀ n, 0 ≤ env.desc n)
    (hret : (PollOnly.setup_port env f0 port w).1 = 0) :
    PollOnly.link_led_tracks (PollOnly.setup_port env f0 port w).2.1
      (PollOnly.setup_port env f0 port w).2.2 := by
  unfold PollOnly.setup_port at hret ⊢
  simp only [] at hret ⊢
  split_ifs at hret ⊢ with h1 h2 h3
  · simp at hret
  · simp at hret
  · refine ⟨hdesc _, hdesc _, fun _ => rfl, ?_⟩
    simp only [poll_only_setup_netdev_trigger_ok _ _ _ hok hdesc,
      poll_only_set_led_brightness_ok _ _ _ _ _ hok (hdesc _), World.emit,
      List.append_assoc, brightness_after_append]
    simp
  · refine ⟨hdesc _, hdesc _, fun _ => rfl, ?_⟩
    simp only [poll_only_set_led_brightness_ok _ _ _ _ _ hok (hdesc _), World.emit,
      List.append_assoc, brightness_after_append]
    simp

/-- One poll-only `update_port`, with all writes succeeding, keeps the link LED tracking the
port memory, leaves the handles alone and makes the memory what this tick observed. -/
theorem poll_only_update_tracks (env : Env) (c f : StatusFile) (port : PollOnly.sfp_port)
    (w : World) (hok : ∀ n, env.ok n = true) (hdesc : ∀ n, 0 ≤ env.desc n)
    (h : PollOnly.link_led_tracks port w) :
    PollOnly.link_led_tracks (PollOnly.update_port env c f port w).1
      (PollOnly.update_port env c f port w).2 ∧
    (PollOnly.update_port env c f port w).1.carrier_fd = port.carrier_fd ∧
    (PollOnly.update_port env c f port w).1.mod_present_fd = port.mod_present_fd ∧
    (PollOnly.update_port env c f port w).1.last_module_present =
      PollOnly.read_module_present port.mod_present_fd f ∧
    (PollOnly.update_port env c f port w).1.last_carrier_state =
      (PollOnly.read_module_present port.mod_present_fd f &&
        PollOnly.read_carrier_state port.carrier_fd c) := by
  obtain ⟨hl, ha, hk, hb⟩ := h
  unfold PollOnly.link_led_tracks
  simp only [PollOnly.update_port, PollOnly.update_presence, PollOnly.update_carrier,
    PollOnly.update_absent]
  generalize PollOnly.read_module_present port.mod_present_fd f = mp
  generalize PollOnly.read_carrier_state port.carrier_fd c = cs
  cases mp <;> cases cs <;> cases h1 : port.last_module_present <;>
    cases h2 : port.last_carrier_state <;>
    simp_all [poll_only_set_led_brightness_ok, poll_only_setup_netdev_trigger_ok,
      open_write_close_ok, World.emit, brightness_after_append]

/-- The last tick of a poll sequence is one `update_port` on the state the earlier ticks
leave. -/
theorem poll_only_poll_snoc (env : Env) (snaps : List (StatusFile × StatusFile))
    (s : StatusFile × StatusFile) :
    ∀ (q : PollOnly.sfp_port) (v : World),
      PollOnly.poll env (snaps ++ [s]) q v =
        PollOnly.update_port env s.1 s.2 (PollOnly.poll env snaps q v).1
          (PollOnly.poll env snaps q v).2 := by
  induction snaps with
  | nil => intro q v; rfl
  | cons t rest ih =>
    intro q v
    simp only [List.cons_append, PollOnly.poll]
    exact ih _ _

/-- Any number of poll-only `update_port`, with all writes succeeding, keep the link LED
tracking the port memory and leave the handles alone. -/
theorem poll_only_poll_tracks (env : Env) (hok : ∀ n, env.ok n = true)
    (hdesc : ∀ n, 0 ≤ env.desc n) (snaps : List (StatusFile × StatusFile)) :
    ∀ (q : PollOnly.sfp_port) (v : World), PollOnly.link_led_tracks q v →
      PollOnly.link_led_tracks (PollOnly.poll env snaps q v).1 (PollOnly.poll env snaps q v).2 ∧
      (PollOnly.poll env snaps q v).1.carrier_fd = q.carrier_fd ∧
      (PollOnly.poll env snaps q v).1.mod_present_fd = q.mod_present_fd := by
  induction snaps with
  | nil => intro q v h; exact ⟨h, rfl, rfl⟩
  | cons s rest ih =>
    intro q v h
    obtain ⟨ht, hc, hm, _, _⟩ := poll_only_update_tracks env s.1 s.2 q v hok hdesc h
    obtain ⟨ht2, hc2, hm2⟩ := ih _ _ ht
    simp only [PollOnly.poll]
    exact ⟨ht2, hc2.trans hc, hm2.trans hm⟩

/-- C22: invariant of the poll-only (carrier) variant.  For every run made of a successful
`setup_port` followed by any finite sequence of `update_port` calls, with all writes
succeeding, after each `update_port` (the last of the sequence, on carrier file `c` and
state file `f`) the last brightness written to the link LED is 255 if that call observed
module present and carrier up and 0 otherwise, and `last_carrier_state` equals (module
present and carrier up).  Moreover an `update_port` that sees the module gone on a port
that remembers one, with both LED handles open, writes trigger <- `none` and then 0 to both
LEDs (twice, the final block repeating it) and issues no bind. -/
theorem poll_only_link_led_follows_carrier (env : Env) (f0 : StatusFile)
    (snaps : List (StatusFile × StatusFile)) (c f : StatusFile) (port : PollOnly.sfp_port)
    (w : World) (hok : ∀ n, env.ok n = true) (hdesc : ∀ n, 0 ≤ env.desc n)
    (hret : (PollOnly.setup_port env f0 port w).1 = 0) :
    brightness_after .link (PollOnly.run env f0 (snaps ++ [(c, f)]) port w).2.trace =
      some (if (PollOnly.read_module_present
                  (PollOnly.setup_port env f0 port w).2.1.mod_present_fd f &&
                PollOnly.read_carrier_state
                  (PollOnly.setup_port env f0 port w).2.1.carrier_fd c)
            then 255 else 0) ∧
    (PollOnly.run env f0 (snaps ++ [(c, f)]) port w).1.last_carrier_state =
      (PollOnly.read_module_present (PollOnly.setup_port env f0 port w).2.1.mod_present_fd f &&
        PollOnly.read_carrier_state (PollOnly.setup_port env f0 port w).2.1.carrier_fd c) ∧
    (∀ (c1 f1 : StatusFile) (q : PollOnly.sfp_port) (v : World),
      0 ≤ q.link_led_fd → 0 ≤ q.activity_led_fd → q.last_module_present = true →
      PollOnly.read_module_present q.mod_present_fd f1 = false →
      issued v (PollOnly.update_port env c1 f1 q v).2 =
        [.sysfs .trigger ['n', 'o', 'n', 'e'] .done,
         .brightness .link 0 (brightness_payload 0) .done,
         .brightness .activity 0 (brightness_payload 0) .done,
         .brightness .link 0 (brightness_payload 0) .done,
         .brightness .activity 0 (brightness_payload 0) .done]) := by
  have h0 := poll_only_setup_tracks env f0 port w hok hdesc hret
  obtain ⟨ht, hc, hm⟩ := poll_only_poll_tracks env hok hdesc snaps _ _ h0
  obtain ⟨ht2, _, _, hmp, hcs⟩ := poll_only_update_tracks env c f _ _ hok hdesc ht
  have hrun : PollOnly.run env f0 (snaps ++ [(c, f)]) port w =
      PollOnly.update_port env c f
        (PollOnly.poll env snaps (PollOnly.setup_port env f0 port w).2.1
          (PollOnly.setup_port env f0 port w).2.2).1
        (PollOnly.poll env snaps (PollOnly.setup_port env f0 port w).2.1
          (PollOnly.setup_port env f0 port w).2.2).2 := by
    unfold PollOnly.run
    exact poll_only_poll_snoc env snaps (c, f) _ _
  rw [hm] at hmp
  rw [hc, hm] at hcs
  refine ⟨?_, ?_, ?_⟩
  · rw [hrun, ht2.2.2.2, hmp, hcs]
    cases PollOnly.read_module_present (PollOnly.setup_port env f0 port w).2.1.mod_present_fd f
      <;> simp
  · rw [hrun, hcs]
  · intro c1 f1 q v hl ha hlast hmp1
    refine issued_of_trace _ _ _ ?_
    simp [PollOnly.update_port, PollOnly.update_presence, PollOnly.update_carrier,
      PollOnly.update_absent, hmp1, hlast, poll_only_set_led_brightness_ok, open_write_close_ok,
      hok, hdesc, hl, ha, World.emit]

/-- Witness of C22: port 0 started on an empty cage, then a tick with module and carrier,
a tick with module and no carrier, and again a tick with module and carrier. -/
theorem poll_only_link_led_follows_carrier_witness :
    brightness_after .link
      (PollOnly.run env_resolved blob_absent
        ([(carrier_up, blob_signal), (carrier_down, blob_signal)]
          ++ [(carrier_up, blob_signal)]) PollOnly.port0 World.init).2.trace = some 255 ∧
    (PollOnly.run env_resolved blob_absent
        ([(carrier_up, blob_signal), (carrier_down, blob_signal)]
          ++ [(carrier_up, blob_signal)]) PollOnly.port0 World.init).1.last_carrier_state
      = true :=
  ⟨(poll_only_link_led_follows_carrier env_resolved blob_absent
      [(carrier_up, blob_signal), (carrier_down, blob_signal)] carrier_up blob_signal
      PollOnly.port0 World.init (fun _ => rfl)
      (fun n => by simp [env_resolved, env_ok]; omega) (by decide)).1,
   (poll_only_link_led_follows_carrier env_resolved blob_absent
      [(carrier_up, blob_signal), (carrier_down, blob_signal)] carrier_up blob_signal
      PollOnly.port0 World.init (fun _ => rfl)
      (fun n => by simp [env_resolved, env_ok]; omega) (by decide)).2.1⟩

/-! ### Software blink, plugin -/

/-- What one plugin `set_led_brightness` adds to the trace on an open handle, whatever the
calls do: the one call. -/
theorem plugin_set_led_brightness_issue (env : Env) (i : Nat) (led : Led) (fd v : Int)
    (w : Plugin.World) (hfd : 0 ≤ fd) :
    ∃ o, (Plugin.set_led_brightness env i led fd v w).2.trace =
      w.trace ++ [Plugin.Act.brightness i led v (Plugin.brightness_payload v) o] := by
  unfold Plugin.set_led_brightness
  have hfd' : ¬ fd < 0 := not_lt.2 hfd
  by_cases h0 : env.ok w.clock
  · by_cases h1 : env.ok (w.clock + 1)
    · exact ⟨.done, by simp [hfd', h0, h1, Plugin.World.emit]⟩
    · exact ⟨.write_failed, by simp [hfd', h0, h1, Plugin.World.emit]⟩
  · exact ⟨.not_written, by simp [hfd', h0, Plugin.World.emit]⟩

/-- The counter branch of the plugin toggles: on an open activity handle the LED ends ON
exactly when it was OFF and a count differs from the stored one, the one brightness call is
the new level, and the stored counts become the current ones. -/
theorem plugin_process_counters_toggles (env : Env) (ifs : Plugin.IfState) (i : Nat)
    (p : Plugin.sfp_led_port_t) (w : Plugin.World) (hfd : 0 ≤ p.activity_led_fd) :
    (Plugin.process_counters env ifs i p w).1.activity_led_state =
      (!p.activity_led_state &&
        (ifs.rx_packets != p.last_rx_packets || ifs.tx_packets != p.last_tx_packets)) ∧
    (∃ o, (Plugin.process_counters env ifs i p w).2.trace = w.trace ++
      (if p.activity_led_state then
         [Plugin.Act.brightness i .activity LED_OFF (Plugin.brightness_payload LED_OFF) o]
       else if (ifs.rx_packets != p.last_rx_packets || ifs.tx_packets != p.last_tx_packets)
       then
         [Plugin.Act.brightness i .activity LED_MAX (Plugin.brightness_payload LED_MAX) o]
       else [])) ∧
    (Plugin.process_counters env ifs i p w).1.last_rx_packets = ifs.rx_packets ∧
    (Plugin.process_counters env ifs i p w).1.last_tx_packets = ifs.tx_packets := by
  obtain ⟨o0, h0⟩ := plugin_set_led_brightness_issue env i .activity p.activity_led_fd
    LED_OFF w hfd
  obtain ⟨o1, h1⟩ := plugin_set_led_brightness_issue env i .activity p.activity_led_fd
    LED_MAX w hfd
  generalize hc : (ifs.rx_packets != p.last_rx_packets ||
    ifs.tx_packets != p.last_tx_packets) = c
  unfold Plugin.process_counters
  rw [hc]
  cases hs : p.activity_led_state <;> cases c
  · exact ⟨by simp [hs], ⟨o0, by simp [hs]⟩, by simp, by simp⟩
  · exact ⟨by simp [hs], ⟨o1, by simp [hs, h1]⟩, by simp, by simp⟩
  · exact ⟨by simp [hs], ⟨o0, by simp [hs, h0]⟩, by simp, by simp⟩
  · exact ⟨by simp [hs], ⟨o0, by simp [hs, h0]⟩, by simp, by simp⟩

/-- Counterexample to C21: a tick of the plugin with module present, interface resolved,
admin up and link up, in which the receive count has grown from 5 to 6 while the activity
LED is ON: the LED is toggled, 0 is written and `activity_led_state` ends 0. -/
theorem plugin_changed_count_turns_lit_led_off :
    Plugin.read_module_present Plugin.port_blinking.sfp_debug_fd blob_signal = true ∧
    (Plugin.process_port env_resolved 1 blob_signal ⟨true, true, 6, 5⟩ 0 Plugin.port_blinking
      ⟨0, []⟩).1.activity_led_state = false ∧
    (Plugin.process_port env_resolved 1 blob_signal ⟨true, true, 6, 5⟩ 0 Plugin.port_blinking
      ⟨0, []⟩).2.trace = [.brightness 0 .activity 0 (some ['0', '\n']) .done] := by
  decide

/-- C21 as amended: plugin software blink.  For every port state and every tick of the
per-port body of `sfp_led_process` with module present, interface index resolved, admin up
and link up (activity LED handle open), a packet count that differs from the stored one
toggles the activity LED instead of lighting it.  After the tick the LED is ON
(`LED_MAX` written, `activity_led_state = 1`) exactly when it was OFF and the receive or
transmit count differs from the stored value; otherwise it is OFF (`activity_led_state =
0`, with 0 written if it was ON).  The state and the stored counts compared are those the
presence check of the same tick leaves, which resets them to 0 when it detects an
insertion; the stored counts end as the current ones. -/
theorem plugin_blink_toggles (env : Env) (poll_count : Nat) (f : StatusFile)
    (ifs : Plugin.IfState) (i : Nat) (port : Plugin.sfp_led_port_t) (w : Plugin.World)
    (hmp : Plugin.read_module_present port.sfp_debug_fd f = true)
    (hidx : port.sw_if_index ≠ Plugin.NO_SW_IF_INDEX)
    (hadmin : ifs.admin_up = true) (hlink : ifs.link_up = true)
    (hfd : 0 ≤ port.activity_led_fd) :
    (Plugin.process_port env poll_count f ifs i port w).1.activity_led_state =
      (!Plugin.led_on_before poll_count port && Plugin.counts_changed poll_count ifs port) ∧
    (∃ o, (Plugin.process_port env poll_count f ifs i port w).2.trace = w.trace ++
      (if Plugin.led_on_before poll_count port then
         [Plugin.Act.brightness i .activity LED_OFF (Plugin.brightness_payload LED_OFF) o]
       else if Plugin.counts_changed poll_count ifs port then
         [Plugin.Act.brightness i .activity LED_MAX (Plugin.brightness_payload LED_MAX) o]
       else [])) ∧
    (Plugin.process_port env poll_count f ifs i port w).1.last_rx_packets = ifs.rx_packets ∧
    (Plugin.process_port env poll_count f ifs i port w).1.last_tx_packets = ifs.tx_packets := by
  have hidx' : (port.sw_if_index != Plugin.NO_SW_IF_INDEX) = true := by simpa using hidx
  cases hins : Plugin.insertion_tick poll_count port
  · have hpres : Plugin.process_presence env poll_count true i port w = (port, w) := by
      unfold Plugin.process_presence
      by_cases h20 : poll_count % 20 = 0
      · cases hl : port.last_module_present
        · simp [Plugin.insertion_tick, h20, hl] at hins
        · simp [h20]
      · simp [h20]
    have hrun : Plugin.process_port env poll_count f ifs i port w =
        Plugin.process_counters env ifs i port w := by
      simp [Plugin.process_port, Plugin.process_activity, hmp, hpres, hidx', hadmin, hlink]
    rw [hrun]
    simpa [Plugin.led_on_before, Plugin.counts_changed, hins] using
      plugin_process_counters_toggles env ifs i port w hfd
  · have hpres : Plugin.process_presence env poll_count true i port w =
        ({ port with last_rx_packets := 0, last_tx_packets := 0, activity_led_state := false,
                     last_module_present := true }, w) := by
      unfold Plugin.process_presence
      by_cases h20 : poll_count % 20 = 0
      · cases hl : port.last_module_present
        · simp [h20]
        · simp [Plugin.insertion_tick, h20, hl] at hins
      · simp [Plugin.insertion_tick, h20] at hins
    have hrun : Plugin.process_port env poll_count f ifs i port w =
        Plugin.process_counters env ifs i
          { port with last_rx_packets := 0, last_tx_packets := 0, activity_led_state := false,
                      last_module_present := true } w := by
      simp [Plugin.process_port, Plugin.process_activity, hmp, hpres, hidx', hadmin, hlink]
    rw [hrun]
    simpa [Plugin.led_on_before, Plugin.counts_changed, hins] using
      plugin_process_counters_toggles env ifs i
        { port with last_rx_packets := 0, last_tx_packets := 0, activity_led_state := false,
                    last_module_present := true } w hfd

/-- Witness of C21 as amended: the 20th tick of a resolved port that remembers no module,
on a blob that shows one, with 6 packets received and 5 sent: the insertion is detected and
the LED, OFF before, ends ON. -/
theorem plugin_blink_toggles_witness :
    (Plugin.process_port env_resolved 20 blob_signal ⟨true, true, 6, 5⟩ 0
      Plugin.port_resolved ⟨0, []⟩).1.activity_led_state =
      (!Plugin.led_on_before 20 Plugin.port_resolved &&
        Plugin.counts_changed 20 ⟨true, true, 6, 5⟩ Plugin.port_resolved) ∧
    (!Plugin.led_on_before 20 Plugin.port_resolved &&
        Plugin.counts_changed 20 ⟨true, true, 6, 5⟩ Plugin.port_resolved) = true :=
  ⟨(plugin_blink_toggles env_resolved 20 blob_signal ⟨true, true, 6, 5⟩ 0
    Plugin.port_resolved ⟨0, []⟩ (by decide) (by decide) rfl rfl (by decide)).1, by decide⟩

end SfpLed
